import Mathlib

/-!
Verification development for the buildah image-assembly pipeline
(`config.go`, `image.go`).  The Go code is shallowly embedded: pure
fragments become Lean functions, stateful fragments pass explicit state,
fallible fragments return `Except String`.  External collaborators
(digest algorithm, gzip codec, tar archiver, the storage driver, the
filesystem) are modelled as records of abstract functions; every theorem
quantifying over such a record comes with a witness that instantiates it
with a concrete executable choice.
-/

namespace BuildahSpec

set_option maxRecDepth 1000000

instance instDecEqExcept {ε α : Type} [DecidableEq ε] [DecidableEq α] :
    DecidableEq (Except ε α) := fun x y =>
  match x, y with
  | .ok a, .ok b =>
    if h : a = b then isTrue (by rw [h]) else isFalse (by simp [h])
  | .error a, .error b =>
    if h : a = b then isTrue (by rw [h]) else isFalse (by simp [h])
  | .ok _, .error _ => isFalse (by simp)
  | .error _, .ok _ => isFalse (by simp)

/-! ## Part 1: `config.go` — the ConfigModel

`SetEnv` (config.go lines 262-285).  The Go code is

    reset := func(s *[]string) {
      getenv := func(name string) string {
        for i := range *s {
          val := strings.SplitN((*s)[i], "=", 2)
          if len(val) == 2 && val[0] == name { return val[1] }
        }
        return name
      }
      n := []string{}
      for i := range *s {
        if !strings.HasPrefix((*s)[i], k+"=") { n = append(n, (*s)[i]) }
        v = os.Expand(v, getenv)
      }
      n = append(n, k+"="+v)
      *s = n
    }
    reset(&b.OCIv1.Config.Env)
    reset(&b.Docker.Config.Env)

Note that `v = os.Expand(v, getenv)` sits INSIDE the loop over `*s`, and
that `v` is shared between the two `reset` calls.  `os.Expand` is Go
standard library (an external collaborator); it is a parameter `expand`
here. -/

/-- `strings.HasPrefix(s, p)`, computed structurally on the character
lists. -/
def strHasPrefix (s p : String) : Bool :=
  p.data.isPrefixOf s.data

def splitEqChars : List Char → Option (List Char × List Char)
  | [] => none
  | c :: rest =>
    if c = '=' then some ([], rest)
    else
      match splitEqChars rest with
      | some (k, v) => some (c :: k, v)
      | none => none

/-- `strings.SplitN(e, "=", 2)` restricted to the `len(val) == 2` case:
the key before the first `=` and everything after it, or `none` when the
entry has no `=`. -/
def splitEq (e : String) : Option (String × String) :=
  match splitEqChars e.data with
  | some (k, v) => some (String.mk k, String.mk v)
  | none => none

/-- The `getenv` closure of `SetEnv`: scan the (pre-mutation) list for a
`name=value` entry and fall back to returning the NAME itself when none
matches. -/
def getenvFrom : List String → String → String
  | [], name => name
  | e :: rest, name =>
    match splitEq e with
    | some (k, v) => if k = name then v else getenvFrom rest name
    | none => getenvFrom rest name

/-- One iteration of the `reset` loop body: drop the entry when it starts
with `k=`, and expand `v` once (against the pre-mutation list, captured
in `g`). -/
def resetStep (expand : String → (String → String) → String)
    (k : String) (g : String → String)
    (acc : List String × String) (e : String) : List String × String :=
  (if strHasPrefix e (k ++ "=") then acc.1 else acc.1 ++ [e], expand acc.2 g)

/-- The `reset` closure of `SetEnv`: returns the new env list and the
final (possibly repeatedly expanded) value of the shared variable `v`. -/
def resetEnv (expand : String → (String → String) → String)
    (k v : String) (s : List String) : List String × String :=
  let r := s.foldl (resetStep expand k (getenvFrom s)) ([], v)
  (r.1 ++ [k ++ "=" ++ r.2], r.2)

/-- `Builder.SetEnv` restricted to the two env lists it touches.  The
second `reset` call starts from the `v` left behind by the first one
(the Go closure mutates the shared `v`). -/
structure EnvPair where
  ociEnv : List String
  dockerEnv : List String
deriving DecidableEq, Repr

def SetEnv (expand : String → (String → String) → String)
    (k v : String) (b : EnvPair) : EnvPair :=
  let r1 := resetEnv expand k v b.ociEnv
  let r2 := resetEnv expand k r1.2 b.dockerEnv
  ⟨r1.1, r2.1⟩

/-- Modelled from the spec: `SetEnv` as the specification sentence reads
— remove the `k=` entries, then append `k=v` with `v` shell-expanded
EXACTLY ONCE against the pre-mutation list of each side (for every
pre-mutation list, including the empty one).  Compared against `SetEnv`
(the embedding of the source) below. -/
def setEnvSpec (expand : String → (String → String) → String)
    (k v : String) (b : EnvPair) : EnvPair :=
  ⟨(b.ociEnv.filter (fun e => !(strHasPrefix e (k ++ "="))))
      ++ [k ++ "=" ++ expand v (getenvFrom b.ociEnv)],
   (b.dockerEnv.filter (fun e => !(strHasPrefix e (k ++ "="))))
      ++ [k ++ "=" ++ expand v (getenvFrom b.dockerEnv)]⟩

/-- A concrete executable instance of `os.Expand` adequate for whole
`$NAME` strings: agrees with the Go function on the inputs the examples
use. -/
def simpleExpand (v : String) (f : String → String) : String :=
  match v.data with
  | c :: rest => if c = '$' then f (String.mk rest) else v
  | [] => v

/-- `expand` applied `n` times in sequence against a fixed lookup. -/
def expandTimes (expand : String → (String → String) → String)
    (g : String → String) : Nat → String → String
  | 0, v => v
  | n + 1, v => expandTimes expand g n (expand v g)

/-! `fixupConfig` / the `Docker.ContainerConfig` snapshot (config.go
lines 90-96):

    if b.Docker.Config != nil {
      b.Docker.ContainerConfig = *b.Docker.Config
    }
    b.Docker.Config = &b.Docker.ContainerConfig
    b.Docker.DockerVersion = ""

After this runs, `b.Docker.Config` POINTS AT `b.Docker.ContainerConfig`;
the later ConfigModel mutators (`SetCmd`, `SetUser`, ... — they all
write through `b.Docker.Config`) therefore write into the very struct
`ContainerConfig` names.  The pointer is made explicit below; only the
Docker half of the mirrored setters is modelled, since the claim is
about the Docker document. -/

structure DockerCfg where
  cmd : List String
  user : String
  workingDir : String
deriving DecidableEq, Repr

/-- Where `b.Docker.Config` points: at a separate heap object, at
`b.Docker.ContainerConfig`, or nowhere (`nil`). -/
inductive ConfigPtr where
  | sep (c : DockerCfg)
  | aliased
  | nil
deriving DecidableEq, Repr

structure DockerDoc where
  containerConfig : DockerCfg
  configPtr : ConfigPtr
  dockerVersion : String
deriving DecidableEq, Repr

/-- Dereference `b.Docker.Config`. -/
def readConfig (d : DockerDoc) : Option DockerCfg :=
  match d.configPtr with
  | .sep c => some c
  | .aliased => some d.containerConfig
  | .nil => none

/-- Write through `b.Docker.Config` (what every Docker-side mutator
does).  A `nil` pointer would crash in Go; `fixupConfig` guarantees the
pointer is set before any mutator runs. -/
def writeConfig (f : DockerCfg → DockerCfg) (d : DockerDoc) : DockerDoc :=
  match d.configPtr with
  | .sep c => { d with configPtr := .sep (f c) }
  | .aliased => { d with containerConfig := f d.containerConfig }
  | .nil => d

/-- The `Docker`-document fragment of `fixupConfig`. -/
def fixupConfigDocker (d : DockerDoc) : DockerDoc :=
  let d1 :=
    match d.configPtr with
    | .sep c => { d with containerConfig := c }
    | _ => d
  { d1 with configPtr := .aliased, dockerVersion := "" }

/-- `Builder.SetCmd`, Docker half (config.go lines 322-325). -/
def setCmdDocker (cmd : List String) (d : DockerDoc) : DockerDoc :=
  writeConfig (fun c => { c with cmd := cmd }) d

/-- `Builder.SetUser`, Docker half (config.go lines 201-204). -/
def setUserDocker (spec : String) (d : DockerDoc) : DockerDoc :=
  writeConfig (fun c => { c with user := spec }) d

/-! ## Part 2: `image.go` — layer planning, materialization, manifest assembly

Byte streams are `List Nat`; a digest is modelled as the value computed
by the abstract digest function of the collaborator record `Env` (the
canonical SHA-256 digester is out of scope), with `[]` standing for the
zero digest `""`.  Times are `Nat` (0 = the zero `time.Time`). -/

abbrev Digest := List Nat

/-- Concrete stand-in for `digest.Digest.Encoded()` (the hex text of a
digest): an injective rendering of the modelled digest value. -/
def encodedOf (d : Digest) : String :=
  String.intercalate "-" (d.map toString)

def strBytes (s : String) : List Nat :=
  s.toList.map Char.toNat

/-- `v1.History`.  `created` is `*time.Time`, hence an `Option`. -/
structure V1History where
  created : Option Nat
  createdBy : String
  author : String
  comment : String
  emptyLayer : Bool
deriving DecidableEq, Repr

/-- `docker.V2S2History`.  `created` is a plain `time.Time`. -/
structure V2S2History where
  created : Nat
  createdBy : String
  author : String
  comment : String
  emptyLayer : Bool
deriving DecidableEq, Repr

/-- The fields of the decoded OCI configuration (`v1.Image`) that the
pipeline reads or writes.  `cfgEnv` is `Config.Env` (touched by
`UnsetEnv`); `cfgRest` opaquely carries the remaining decoded content,
which the pipeline copies through unchanged. -/
structure OImage where
  created : Option Nat
  author : String
  diffIDs : List Digest
  history : List V1History
  cfgEnv : List String
  cfgRest : String
deriving DecidableEq, Repr

/-- The corresponding fields of the decoded Docker configuration
(`docker.V2Image`). -/
structure DImage where
  created : Nat
  author : String
  parent : String
  container : String
  diffIDs : List Digest
  history : List V2S2History
  cfgEnv : List String
  cfgRest : String
deriving DecidableEq, Repr

/-- `storage.Layer`, the fields the pipeline reads. -/
structure StorageLayer where
  id : String
  parent : String
  uncompressedDigest : Digest
  uncompressedSize : Int
deriving DecidableEq, Repr

/-- `LinkedLayer`: a caller-supplied extra layer. -/
structure LinkedLayer where
  blobPath : String
  history : V1History
deriving DecidableEq, Repr

/-- `commitLinkedLayerInfo`: a linked layer after ingestion. -/
structure CommitLinkedLayerInfo where
  layerID : String
  linkedLayer : LinkedLayer
  uncompressedDigest : Digest
  size : Int
deriving DecidableEq, Repr

/-- `blobLayerInfo`. -/
structure BlobLayerInfo where
  id : String
  size : Int
deriving DecidableEq, Repr

/-- `archive.Compression` restricted to the named constants the code
switches over. -/
inductive Compression where
  | uncompressed
  | gzip
  | bzip2
  | xz
  | zstd
deriving DecidableEq, Repr

/-- A manifest layer descriptor (`v1.Descriptor` / `docker.V2S2Descriptor`
carry the same three fields here). -/
structure Descriptor where
  mediaType : String
  digest : Digest
  size : Int
deriving DecidableEq, Repr

/-- I/O performed on layer bytes, recorded as a trace so that "no bytes
were streamed" is a statement about the model. -/
inductive IOEvent where
  | openedDiff (layerID : String)
  | openedApiBlob (path : String)
  | builtExtraDiff
  | openedExtraDiff
  | extractedRootfs
  | extractedCW
  | stagedFile (d : Digest)
deriving DecidableEq, Repr

/-- The external collaborators of `NewImageSource`: digesting,
compression, the tar-header filterer, the storage driver's diff streams,
the rootfs extractor, the confidential-workload archiver, file contents,
and tar serialization for the extra-content diff. -/
structure Env where
  hash : List Nat → Digest
  gzipBytes : List Nat → List Nat
  filterTar : Option Nat → List Nat → List Nat
  diffBytes : String → List Nat
  rootfsBytes : List Nat
  cwBytes : List Nat
  fileBytes : String → List Nat
  tarEntry : String → Nat → List Nat → List Nat
  tarFooter : List Nat

/-- `archive.CompressStream`: pass-through when uncompressed, the gzip
codec for gzip.  (bzip2/xz/zstd are rejected by `computeLayerMIMEType`
before a compressor is ever constructed.) -/
def compressBytes (env : Env) : Compression → List Nat → List Nat
  | .uncompressed, b => b
  | .gzip, b => env.gzipBytes b
  | _, b => b

/-- Media-type constants (`define`, `v1`, `docker`, `manifest`
packages). -/
def ociMTImageManifest : String := "application/vnd.oci.image.manifest.v1+json"
def dockerMTManifest : String := "application/vnd.docker.distribution.manifest.v2+json"
def ociMTImageLayer : String := "application/vnd.oci.image.layer.v1.tar"
def ociMTImageLayerGzip : String := "application/vnd.oci.image.layer.v1.tar+gzip"
def dockerMTUncompressedLayer : String := "application/vnd.docker.image.rootfs.diff.tar"
def dockerMTLayerGzip : String := "application/vnd.docker.image.rootfs.diff.tar.gzip"
def ociMTImageConfig : String := "application/vnd.oci.image.config.v1+json"
def dockerMTConfig : String := "application/vnd.docker.container.image.v1+json"

/-- `computeLayerMIMEType` (image.go lines 153-179).  The `what`
argument only feeds debug logging and is dropped. -/
def computeLayerMIMEType : Compression → Except String (String × String)
  | .uncompressed => .ok (ociMTImageLayer, dockerMTUncompressedLayer)
  | .gzip => .ok (ociMTImageLayerGzip, dockerMTLayerGzip)
  | .bzip2 => .error "media type for bzip2-compressed layers is not defined"
  | .xz => .error "media type for xz-compressed layers is not defined"
  | .zstd => .error "media type for zstd-compressed layers is not defined"

/-- The error message `computeLayerMIMEType` produces for a rejected
compression. -/
def mimeErrMsg : Compression → String
  | .bzip2 => "media type for bzip2-compressed layers is not defined"
  | .xz => "media type for xz-compressed layers is not defined"
  | .zstd => "media type for zstd-compressed layers is not defined"
  | _ => ""

/-- The `containerImageRef` state that `NewImageSource` consumes
(image.go lines 60-92), with the raw config blobs already decoded. -/
structure Ctx where
  fromImageName : String
  fromImageID : String
  compression : Compression
  containerID : String
  layerID : String
  oimage0 : OImage
  dimage0 : DImage
  created : Option Nat
  createdBy : String
  historyComment : String
  annots : List (String × String)
  preferredManifestType : String
  squash : Bool
  convert : Bool
  omitHistory : Bool
  emptyLayer : Bool
  parent : String
  blobDirectory : String
  preEmptyLayers : List V1History
  preLayers : List CommitLinkedLayerInfo
  postEmptyLayers : List V1History
  postLayers : List CommitLinkedLayerInfo
  extraImageContent : List (String × String)
  compatSetParent : Bool
  store : List StorageLayer
  overrideErr : Option String
deriving DecidableEq, Repr

/-- `store.Layer(id)`: exact-id lookup in the modelled layer store. -/
def storeLayerLookup (store : List StorageLayer) (id : String) :
    Option StorageLayer :=
  store.find? (fun l => l.id == id)

def synthesizedLayerID : String := "(synthesized layer)"

/-- The result of the layer-list planning prologue of `NewImageSource`
(image.go lines 420-477). -/
structure LayerPlan where
  layers : List String
  parentLayerIDs : List String
  apiLayerIDs : List String
deriving DecidableEq, Repr

/-- The parent-chain walk (image.go lines 439-458): append the top
layer, prepend each parent in front of the whole accumulated list, stop
on an empty parent or when squashing / converting.  Fuel bounds the walk
(the Go loop terminates only on acyclic parent chains). -/
def walkChain (ctx : Ctx) :
    Nat → String → StorageLayer → List String → List String →
    Except String (List String × List String)
  | 0, layerID, _, _, _ =>
    .error ("unable to read layer " ++ layerID ++ ": parent chain exhausted fuel")
  | fuel + 1, layerID, layer, layers, parents =>
    let acc :=
      if layerID = ctx.layerID then (layers ++ [layerID], parents)
      else (layerID :: layers, layerID :: parents)
    let nextID := layer.parent
    if nextID = "" ∨ ctx.convert = true ∨ ctx.squash = true then .ok acc
    else
      match storeLayerLookup ctx.store nextID with
      | none => .error ("unable to read layer " ++ nextID)
      | some nl => walkChain ctx fuel nextID nl acc.1 acc.2

/-- Layer-list planning (image.go lines 420-477): prepended API layers,
then the chain walk, then the synthesized-layer sentinel when extra
content is present (and the mode is neither squash nor
confidential-workload), then appended API layers. -/
def buildLayerList (ctx : Ctx) : Except String LayerPlan :=
  let pre := ctx.preLayers.map (fun l => l.layerID)
  let post := ctx.postLayers.map (fun l => l.layerID)
  match storeLayerLookup ctx.store ctx.layerID with
  | none => .error ("unable to read layer " ++ ctx.layerID)
  | some layer =>
    match walkChain ctx (ctx.store.length + 1) ctx.layerID layer pre [] with
    | .error e => .error e
    | .ok (layers1, parents) =>
      let layers2 :=
        if ¬ctx.extraImageContent.isEmpty ∧ ctx.convert = false ∧ ctx.squash = false
        then layers1 ++ [synthesizedLayerID] else layers1
      .ok ⟨layers2 ++ post, parents, pre ++ post⟩

/-- `apiLayers := append(slices.Clone(i.preLayers), slices.Clone(i.postLayers)...)`. -/
def apiLayersOf (ctx : Ctx) : List CommitLinkedLayerInfo :=
  ctx.preLayers ++ ctx.postLayers

/-- `makeExtraImageContentDiff` (image.go lines 1042-1100): write one
tar entry per `(path, hostPath)` pair in the given iteration order (Go
map iteration order is a run-time choice, hence the explicit `order`
parameter), digest everything written; with `includeFooter = false` the
footer is not written and the digest/size results are the zero digest
and `-1`. -/
def makeExtraImageContentDiffM (env : Env) (ctx : Ctx) (effCreated : Nat)
    (order : List String) (includeFooter : Bool) : List Nat × Digest × Int :=
  let body := order.foldl
    (fun acc p =>
      let hostPath := ((ctx.extraImageContent.find? (fun kv => kv.1 == p)).map
        (fun kv => kv.2)).getD ""
      acc ++ env.tarEntry p effCreated (env.fileBytes hostPath))
    []
  if includeFooter then
    let stream := body ++ env.tarFooter
    (stream, env.hash stream, Int.ofNat stream.length)
  else
    (body, [], -1)

/-- Mutable state threaded through the per-layer loop of
`NewImageSource` (image.go lines 501-739): the manifest layer lists, the
two diff-ID lists, the `blobLayers` reuse index, the set of staged blob
files (named by digest), the layer-bytes I/O trace, and the synthesized
extra-content diff once built. -/
structure RunSt where
  oLayers : List Descriptor
  dLayers : List Descriptor
  oDiffIDs : List Digest
  dDiffIDs : List Digest
  blobLayers : List (Digest × BlobLayerInfo)
  staged : List Digest
  trace : List IOEvent
  extraDiff : Option (List Nat)
  extraDiffDigest : Digest
deriving DecidableEq, Repr

def initRunSt : RunSt := ⟨[], [], [], [], [], [], [], none, []⟩

/-- Outcome of one loop iteration: success with the new state, or
failure carrying the state at failure time (so the I/O trace stays
observable). -/
inductive StepRes where
  | ok (st : RunSt)
  | fail (msg : String) (st : RunSt)
deriving Repr

/-- Phase 1 of an iteration (image.go lines 519-547): look up the
layer's uncompressed digest and size — from the ingested API layers, by
building the extra-content diff for the synthesized sentinel, or from
the storage driver (re-binding `layerID` to `layer.ID`). -/
def lookupLayerPhase (env : Env) (ctx : Ctx) (plan : LayerPlan)
    (effCreated : Nat) (order : List String) (st : RunSt) (layerID : String) :
    Except String (String × Digest × Int × RunSt) :=
  if plan.apiLayerIDs.contains layerID then
    match (apiLayersOf ctx).find? (fun l => l.layerID == layerID) with
    | some a => .ok (layerID, a.uncompressedDigest, a.size, st)
    | none => .error "internal error: API layer index out of range"
  else if layerID = synthesizedLayerID then
    let r := makeExtraImageContentDiffM env ctx effCreated order true
    .ok (layerID, r.2.1, r.2.2,
      { st with trace := st.trace ++ [.builtExtraDiff],
                extraDiff := some r.1, extraDiffDigest := r.2.1 })
  else
    match storeLayerLookup ctx.store layerID with
    | none => .error ("unable to locate layer " ++ layerID)
    | some layer =>
      .ok (layer.id, layer.uncompressedDigest, layer.uncompressedSize, st)

/-- Stream selection (image.go lines 582-627), in the code's branch
order: confidential workload, then squash (prepending the footerless
extra-content diff when extra content exists), then API blob, then the
synthesized diff file, then the empty-top-layer skip (`.ok none`
models the `continue`), then a storage diff. -/
def selectStream (env : Env) (ctx : Ctx) (plan : LayerPlan)
    (effCreated : Nat) (order : List String) (st : RunSt) (layerID : String) :
    Except String (Option (List Nat × List IOEvent)) :=
  if ctx.convert then .ok (some (env.cwBytes, [.extractedCW]))
  else if ctx.squash then
    if ¬ctx.extraImageContent.isEmpty then
      .ok (some ((makeExtraImageContentDiffM env ctx effCreated order false).1
          ++ env.rootfsBytes, [.builtExtraDiff, .extractedRootfs]))
    else
      .ok (some (env.rootfsBytes, [.extractedRootfs]))
  else if plan.apiLayerIDs.contains layerID then
    match (apiLayersOf ctx).find? (fun l => l.layerID == layerID) with
    | some a =>
      .ok (some (env.fileBytes a.linkedLayer.blobPath,
        [.openedApiBlob a.linkedLayer.blobPath]))
    | none => .error "internal error: API layer index out of range"
  else if layerID = synthesizedLayerID then
    match st.extraDiff with
    | some bytes => .ok (some (bytes, [.openedExtraDiff]))
    | none => .error "internal error: extra-content diff not built"
  else if ctx.emptyLayer ∧ layerID = ctx.layerID then .ok none
  else .ok (some (env.diffBytes layerID, [.openedDiff layerID]))

/-- One iteration of the per-layer loop (image.go lines 505-739).
After the lookup, the parent-reuse fast path records the storage
digest/size with the uncompressed media types and a `blobLayers` entry,
streaming nothing.  Otherwise the media type is computed (rejecting
bzip2/xz/zstd), the stream is opened, filtered (clearing `Uname`/`Gname`
and rewriting non-zero times when `created` is set — inside
`env.filterTar`), hashed pre-compression (`srcHasher`), compressed and
hashed post-compression (`destHasher`, which IS `srcHasher` when not
compressing), written to the staging file and renamed to the destination
digest. -/
def processLayerRest (env : Env) (ctx : Ctx) (plan : LayerPlan)
    (effCreated : Nat) (order : List String) (layerID : String)
    (uDigest : Digest) (uSize : Int) (st : RunSt) : StepRes :=
  if ctx.convert = false ∧ ctx.squash = false ∧
      plan.parentLayerIDs.contains layerID = true ∧ uDigest ≠ [] then
    .ok { st with
      oLayers := st.oLayers ++ [⟨ociMTImageLayer, uDigest, uSize⟩],
      dLayers := st.dLayers ++ [⟨dockerMTUncompressedLayer, uDigest, uSize⟩],
      oDiffIDs := st.oDiffIDs ++ [uDigest],
      dDiffIDs := st.dDiffIDs ++ [uDigest],
      blobLayers := st.blobLayers ++ [(uDigest, ⟨layerID, uSize⟩)] }
  else
    match computeLayerMIMEType ctx.compression with
    | .error e => .fail e st
    | .ok (omt, dmt) =>
      match selectStream env ctx plan effCreated order st layerID with
      | .error e => .fail e st
      | .ok none => .ok st
      | .ok (some (bytes, evs)) =>
        let filtered := env.filterTar ctx.created bytes
        let srcDigest := env.hash filtered
        let outBytes := compressBytes env ctx.compression filtered
        let destDigest :=
          if ctx.compression = .uncompressed then srcDigest
          else env.hash outBytes
        if ctx.compression = .uncompressed ∧ filtered.length ≠ outBytes.length
        then
          .fail "inconsistent layer size" { st with trace := st.trace ++ evs }
        else
          let size := Int.ofNat outBytes.length
          .ok { st with
            trace := st.trace ++ evs ++ [.stagedFile destDigest],
            staged := st.staged ++ [destDigest],
            oLayers := st.oLayers ++ [⟨omt, destDigest, size⟩],
            dLayers := st.dLayers ++ [⟨dmt, destDigest, size⟩],
            oDiffIDs := st.oDiffIDs ++ [srcDigest],
            dDiffIDs := st.dDiffIDs ++ [srcDigest] }

def processLayer (env : Env) (ctx : Ctx) (plan : LayerPlan)
    (effCreated : Nat) (order : List String) (st : RunSt) (layerID0 : String) :
    StepRes :=
  match lookupLayerPhase env ctx plan effCreated order st layerID0 with
  | .error e => .fail e st
  | .ok (layerID, uDigest, uSize, st2) =>
    processLayerRest env ctx plan effCreated order layerID uDigest uSize st2

/-- The whole per-layer loop. -/
def processLayers (env : Env) (ctx : Ctx) (plan : LayerPlan)
    (effCreated : Nat) (order : List String) :
    List String → RunSt → StepRes
  | [], st => .ok st
  | l :: rest, st =>
    match processLayer env ctx plan effCreated order st l with
    | .ok st2 => processLayers env ctx plan effCreated order rest st2
    | .fail e st2 => .fail e st2

/-- `createConfigsAndManifests` (image.go lines 310-410): fresh copies
of both configurations with `created` replaced, diff-IDs cleared,
history cleared when squashing / converting / omitting history, the
Docker `Parent` set from `compatSetParent` but cleared again by the
squash branch, and `Container` set.  The `config.Override` collaborator
can fail (`ctx.overrideErr`); the fields it and the confidential
override touch live in the opaque `cfgRest` and are carried through. -/
def createConfigsAndManifests (ctx : Ctx) (effCreated : Nat) :
    Except String (OImage × DImage) :=
  let clearHist := ctx.convert = true ∨ ctx.squash = true ∨ ctx.omitHistory = true
  let oimage := { ctx.oimage0 with
    created := some effCreated,
    diffIDs := [],
    history := if clearHist then [] else ctx.oimage0.history }
  let dimage := { ctx.dimage0 with
    parent :=
      if clearHist then ""
      else if ctx.compatSetParent then ctx.parent else ctx.dimage0.parent,
    container := ctx.containerID,
    created := effCreated,
    diffIDs := [],
    history := if clearHist then [] else ctx.dimage0.history }
  match ctx.overrideErr with
  | some m => .error ("applying changes: " ++ m)
  | none => .ok (oimage, dimage)

/-- The `appendHistory` closure (image.go lines 742-769): copy the given
entries into both formats, forcing `EmptyLayer` to the given flag; the
Docker side replaces a nil `created` with the zero time. -/
def appendHistoryPair (entries : List V1History) (empty : Bool) :
    List V1History × List V2S2History :=
  (entries.map (fun h => ⟨h.created, h.createdBy, h.author, h.comment, empty⟩),
   entries.map (fun h => ⟨h.created.getD 0, h.createdBy, h.author, h.comment, empty⟩))

/-- History entries for linked layers: `appendHistory([h.linkedLayer.History],
h.linkedLayer.History.EmptyLayer)` per layer (image.go lines 780-782,
824-826). -/
def linkedHistO (ls : List CommitLinkedLayerInfo) : List V1History :=
  ls.map (fun l =>
    ⟨l.linkedLayer.history.created, l.linkedLayer.history.createdBy,
     l.linkedLayer.history.author, l.linkedLayer.history.comment,
     l.linkedLayer.history.emptyLayer⟩)

def linkedHistD (ls : List CommitLinkedLayerInfo) : List V2S2History :=
  ls.map (fun l =>
    ⟨l.linkedLayer.history.created.getD 0, l.linkedLayer.history.createdBy,
     l.linkedLayer.history.author, l.linkedLayer.history.comment,
     l.linkedLayer.history.emptyLayer⟩)

/-- `CreatedBy` of the history entry recorded for the synthesized
extra-content layer (image.go line 809): the Go source is the raw string
literal `/bin/sh -c #(nop) ADD dir:%s in /",` — note that it ends with
a slash, a double-quote and a comma. -/
def addCreatedBy (d : Digest) : String :=
  "/bin/sh -c #(nop) ADD dir:" ++ encodedOf d ++ " in /\","

/-- `strings.Contains` (true for the empty substring). -/
def charsContains (sub : List Char) : List Char → Bool
  | [] => sub.isEmpty
  | c :: rest => sub.isPrefixOf (c :: rest) || charsContains sub rest

def strContains (s sub : String) : Bool :=
  charsContains sub.data s.data

/-- The `FROM` attribution comment (image.go lines 830-836): non-empty
exactly when `parent` contains `fromImageID`, `fromImageName` is
non-empty, and `fromImageID` does NOT start with `fromImageName`
(`!strings.HasPrefix(i.fromImageID, i.fromImageName)`); the leading
space appears only when the existing comment (of the OCI entry at the
base index) is non-empty. -/
def fromCommentOf (parent fromImageID fromImageName baseComment : String) :
    String :=
  if strContains parent fromImageID ∧ fromImageName ≠ "" ∧
      strHasPrefix fromImageID fromImageName = false then
    (if baseComment ≠ "" then " " else "") ++ "FROM " ++ fromImageName
  else ""

/-- Append `c` to the comment of the entry at index `i`
(`history[baseImageHistoryLen].Comment += fromComment`). -/
def modifyCommentO (c : String) : List V1History → Nat → List V1History
  | [], _ => []
  | h :: t, 0 => { h with comment := h.comment ++ c } :: t
  | h :: t, n + 1 => h :: modifyCommentO c t n

def modifyCommentD (c : String) : List V2S2History → Nat → List V2S2History
  | [], _ => []
  | h :: t, 0 => { h with comment := h.comment ++ c } :: t
  | h :: t, n + 1 => h :: modifyCommentD c t n

/-- `expectedOCIDiffIDs` (image.go lines 131-139). -/
def expectedOCIDiffIDs (img : OImage) : Nat :=
  img.history.foldl (fun n h => if h.emptyLayer then n else n + 1) 0

/-- `expectedDockerDiffIDs` (image.go lines 141-149). -/
def expectedDockerDiffIDs (img : DImage) : Nat :=
  img.history.foldl (fun n h => if h.emptyLayer then n else n + 1) 0

/-- The history/diff-ID confidence check (image.go lines 840-852): only
when the base image contributed at least one history entry. -/
def historyDiffIDCheck (baseLen : Nat) (oimage : OImage) (dimage : DImage) :
    Except String Unit :=
  if baseLen ≠ 0 then
    if oimage.diffIDs.length ≠ expectedOCIDiffIDs oimage then
      .error ("internal error: history lists "
        ++ toString (expectedOCIDiffIDs oimage)
        ++ " non-empty layers, but we have "
        ++ toString oimage.diffIDs.length ++ " layers on disk")
    else
      if dimage.diffIDs.length ≠ expectedDockerDiffIDs dimage then
        .error ("internal error: history lists "
          ++ toString (expectedDockerDiffIDs dimage)
          ++ " non-empty layers, but we have "
          ++ toString dimage.diffIDs.length ++ " layers on disk")
      else .ok ()
  else .ok ()

/-- The assembled OCI history before the `FROM` comment is applied
(image.go lines 772-826): base history, prepended empty layers,
prepended linked layers, the commit's own entry, the extra-content entry
when a synthesized diff was produced, appended empty layers, appended
linked layers. -/
def assembledHistO (ctx : Ctx) (effCreated : Nat) (st : RunSt)
    (oimage : OImage) : List V1History :=
  oimage.history
    ++ (appendHistoryPair ctx.preEmptyLayers true).1
    ++ linkedHistO ctx.preLayers
    ++ [⟨some effCreated, ctx.createdBy, oimage.author, ctx.historyComment,
         ctx.emptyLayer⟩]
    ++ (match st.extraDiff with
        | some _ => [⟨some effCreated, addCreatedBy st.extraDiffDigest, "", "", false⟩]
        | none => [])
    ++ (appendHistoryPair ctx.postEmptyLayers true).1
    ++ linkedHistO ctx.postLayers

def assembledHistD (ctx : Ctx) (effCreated : Nat) (st : RunSt)
    (dimage : DImage) : List V2S2History :=
  dimage.history
    ++ (appendHistoryPair ctx.preEmptyLayers true).2
    ++ linkedHistD ctx.preLayers
    ++ [⟨effCreated, ctx.createdBy, dimage.author, ctx.historyComment,
         ctx.emptyLayer⟩]
    ++ (match st.extraDiff with
        | some _ => [⟨effCreated, addCreatedBy st.extraDiffDigest, "", "", false⟩]
        | none => [])
    ++ (appendHistoryPair ctx.postEmptyLayers true).2
    ++ linkedHistD ctx.postLayers

/-- The `FROM` comment computed for this assembly: the leading-space
decision reads the comment of the OCI entry at the base index. -/
def historyFromComment (ctx : Ctx) (effCreated : Nat) (st : RunSt)
    (oimage : OImage) : String :=
  fromCommentOf ctx.parent ctx.fromImageID ctx.fromImageName
    ((((assembledHistO ctx effCreated st oimage).get?
        oimage.history.length).map (fun h => h.comment)).getD "")

/-- The OCI document after history assembly and `FROM` attribution. -/
def historyFinalO (ctx : Ctx) (effCreated : Nat) (st : RunSt)
    (oimage : OImage) : OImage :=
  { oimage with history :=
      (modifyCommentO (historyFromComment ctx effCreated st oimage)
        (assembledHistO ctx effCreated st oimage) oimage.history.length) }

/-- The Docker document after history assembly and `FROM` attribution;
both the index and the comment come from the OCI side. -/
def historyFinalD (ctx : Ctx) (effCreated : Nat) (st : RunSt)
    (oimage : OImage) (dimage : DImage) : DImage :=
  { dimage with history :=
      (modifyCommentD (historyFromComment ctx effCreated st oimage)
        (assembledHistD ctx effCreated st dimage) oimage.history.length) }

/-- History assembly, `FROM` attribution and the confidence check
(image.go lines 771-853).  Everything is skipped when history is
omitted. -/
def buildHistory (ctx : Ctx) (effCreated : Nat) (st : RunSt)
    (oimage : OImage) (dimage : DImage) : Except String (OImage × DImage) :=
  if ctx.omitHistory then .ok (oimage, dimage)
  else
    match historyDiffIDCheck oimage.history.length
        (historyFinalO ctx effCreated st oimage)
        (historyFinalD ctx effCreated st oimage dimage) with
    | .error e => .error e
    | .ok _ => .ok (historyFinalO ctx effCreated st oimage,
        historyFinalD ctx effCreated st oimage dimage)

/-! Marshalling.  `json.Marshal` of the configurations and manifests is
modelled by concrete injective encoders over the modelled fields (the
real encoder is deterministic and injective on them; Go's JSON encoder
sorts map keys, so the annotation list — kept sorted by the caller —
encodes deterministically as well). -/

def encOptNat : Option Nat → String
  | none => "null"
  | some n => toString n

def encStrList (l : List String) : String :=
  "(" ++ String.intercalate ";" l ++ ")"

def encV1History (h : V1History) : String :=
  "(" ++ encOptNat h.created ++ ";" ++ h.createdBy ++ ";" ++ h.author ++ ";"
    ++ h.comment ++ ";" ++ toString h.emptyLayer ++ ")"

def encV2S2History (h : V2S2History) : String :=
  "(" ++ toString h.created ++ ";" ++ h.createdBy ++ ";" ++ h.author ++ ";"
    ++ h.comment ++ ";" ++ toString h.emptyLayer ++ ")"

def encDigestList (l : List Digest) : String :=
  "(" ++ String.intercalate ";" (l.map encodedOf) ++ ")"

def encodeOImage (img : OImage) : String :=
  "ociimage(" ++ encOptNat img.created ++ ";" ++ img.author ++ ";"
    ++ encDigestList img.diffIDs ++ ";"
    ++ String.intercalate "," (img.history.map encV1History) ++ ";"
    ++ encStrList img.cfgEnv ++ ";" ++ img.cfgRest ++ ")"

def encodeDImage (img : DImage) : String :=
  "dockerimage(" ++ toString img.created ++ ";" ++ img.author ++ ";"
    ++ img.parent ++ ";" ++ img.container ++ ";"
    ++ encDigestList img.diffIDs ++ ";"
    ++ String.intercalate "," (img.history.map encV2S2History) ++ ";"
    ++ encStrList img.cfgEnv ++ ";" ++ img.cfgRest ++ ")"

def encDescriptor (x : Descriptor) : String :=
  "(" ++ x.mediaType ++ ";" ++ encodedOf x.digest ++ ";" ++ toString x.size ++ ")"

def encodeManifestDoc (mediaType : String) (config : Descriptor)
    (layers : List Descriptor) (annots : List (String × String)) : String :=
  "manifest(" ++ mediaType ++ ";" ++ encDescriptor config ++ ";"
    ++ String.intercalate "," (layers.map encDescriptor) ++ ";"
    ++ String.intercalate "," (annots.map (fun a => a.1 ++ "=" ++ a.2)) ++ ")"

/-- The `containerImageSource` produced on success (image.go lines
906-921), extended with the final configuration documents and manifest
layer lists as ghost observations for stating properties. -/
structure ImageSrc where
  config : String
  configDigest : Digest
  manifest : String
  manifestType : String
  blobLayers : List (Digest × BlobLayerInfo)
  staged : List Digest
  oimageFinal : OImage
  dimageFinal : DImage
  oLayersFinal : List Descriptor
  dLayersFinal : List Descriptor
deriving DecidableEq, Repr

/-- `NewImageSource` (image.go lines 412-923), once the effective
creation time has been resolved: manifest-type gate, layer-list
planning, fresh configs, the per-layer loop, history assembly with the
confidence check, marshalling, and selection of the emitted pair.  The
result is paired with the layer-bytes I/O trace. -/
def nisCore (env : Env) (ctx : Ctx) (effCreated : Nat) (order : List String) :
    Except String ImageSrc × List IOEvent :=
  if ctx.preferredManifestType ≠ ociMTImageManifest ∧
      ctx.preferredManifestType ≠ dockerMTManifest then
    (.error ("no supported manifest types (attempted to use "
      ++ ctx.preferredManifestType ++ ")"), [])
  else
    match buildLayerList ctx with
    | .error e => (.error e, [])
    | .ok plan =>
      match createConfigsAndManifests ctx effCreated with
      | .error e => (.error e, [])
      | .ok (oimage, dimage) =>
        match processLayers env ctx plan effCreated order plan.layers initRunSt with
        | .fail e st => (.error e, st.trace)
        | .ok st =>
          match buildHistory ctx effCreated st
              { oimage with diffIDs := st.oDiffIDs }
              { dimage with diffIDs := st.dDiffIDs } with
          | .error e => (.error e, st.trace)
          | .ok (oimage2, dimage2) =>
            let oconfigBytes := encodeOImage oimage2
            let oconfigDesc : Descriptor :=
              ⟨ociMTImageConfig, env.hash (strBytes oconfigBytes),
               Int.ofNat oconfigBytes.length⟩
            let omanifestBytes :=
              encodeManifestDoc ociMTImageManifest oconfigDesc st.oLayers ctx.annots
            let dconfigBytes := encodeDImage dimage2
            let dconfigDesc : Descriptor :=
              ⟨dockerMTConfig, env.hash (strBytes dconfigBytes),
               Int.ofNat dconfigBytes.length⟩
            let dmanifestBytes :=
              encodeManifestDoc dockerMTManifest dconfigDesc st.dLayers []
            let pair :=
              if ctx.preferredManifestType = ociMTImageManifest
              then (oconfigBytes, omanifestBytes)
              else (dconfigBytes, dmanifestBytes)
            (.ok ⟨pair.1, env.hash (strBytes pair.1), pair.2,
              ctx.preferredManifestType, st.blobLayers, st.staged,
              oimage2, dimage2, st.oLayers, st.dLayers⟩, st.trace)

/-- `NewImageSource` proper: `time.Now()` (the `now` argument, chosen by
the run) is used only when no creation-time override is configured. -/
def newImageSource (env : Env) (ctx : Ctx) (now : Nat) (order : List String) :
    Except String ImageSrc × List IOEvent :=
  nisCore env ctx (ctx.created.getD now) order

/-- `baseImageHistoryLen` as a function of the inputs: the length the
history has when the loop finishes, before this commit appends to it. -/
def baseHistoryLen (ctx : Ctx) : Nat :=
  if ctx.convert = true ∨ ctx.squash = true ∨ ctx.omitHistory = true then 0
  else ctx.oimage0.history.length

/-! ### `containerImageSource.GetBlob` (image.go lines 985-1037) -/

/-- The files findable by `os.OpenFile` during `GetBlob`: a stat size per
`(directory, file name)` pair. -/
structure BlobFS where
  files : List ((String × String) × Int)

def fsLookup (fs : BlobFS) (dir name : String) : Option Int :=
  (fs.files.find? (fun e => e.1.1 == dir && e.1.2 == name)).map (fun e => e.2)

/-- Where the returned reader's bytes come from. -/
inductive BlobSrc where
  | config
  | storeDiff (layerID : String)
  | file (dir : String)
deriving DecidableEq, Repr

/-- The `containerImageSource` fields `GetBlob` consults. -/
structure SrcInfo where
  config : String
  configDigest : Digest
  blobLayers : List (Digest × BlobLayerInfo)
  blobDirectory : String
  path : String
deriving DecidableEq, Repr

/-- `GetBlob`: the config fast path, then the `blobLayers` reuse index
(served by `store.Diff`), then the directory scan — the optional
external blob directory FIRST, the per-commit staging directory second,
first hit wins; a complete miss is the "opening layer blob" error. -/
def getBlob (fs : BlobFS) (src : SrcInfo) (d : Digest) :
    Except String (BlobSrc × Int) :=
  if d = src.configDigest then
    .ok (.config, Int.ofNat src.config.length)
  else
    match src.blobLayers.find? (fun e => e.1 == d) with
    | some e => .ok (.storeDiff e.2.id, e.2.size)
    | none =>
      match fsLookup fs src.blobDirectory (encodedOf d) with
      | some sz => .ok (.file src.blobDirectory, sz)
      | none =>
        match fsLookup fs src.path (encodedOf d) with
        | some sz => .ok (.file src.path, sz)
        | none => .error "opening layer blob"

/-! ### `Builder.makeContainerImageRef` and `makeLinkedLayerInfos`
(image.go lines 1104-1302) -/

/-- What `os.Stat` reports for a linked layer's blob path. -/
structure FileInfo where
  isDir : Bool
deriving DecidableEq, Repr

/-- Collaborators of the Builder-side commit preparation: the storage
container record, `os.Stat`, file contents, the chroot tar archiver for
directory blobs, the digester, and the name `os.CreateTemp` hands out
for an archived directory. -/
structure BEnv where
  container : Option (String × List String × String)
  stat : String → Option FileInfo
  fileBytes : String → List Nat
  tarDir : String → List Nat
  hash : List Nat → Digest
  tmpName : String → String
  store : List StorageLayer

/-- Ingestion I/O performed on linked-layer bytes. -/
inductive IngestEvent where
  | archivedDir (path : String)
  | digestedFile (path : String)
deriving DecidableEq, Repr

/-- `makeLinkedLayerInfos` (image.go lines 1104-1177): per layer, check
the `EmptyLayer ⇔ BlobPath == ""` constraint, skip empty layers, stat
the path, archive-and-digest directories (rebinding `BlobPath` to the
staged temp file) or tee-digest plain files.  Returns the infos paired
with the ingestion trace (also populated on the failing prefix). -/
def makeLinkedLayerInfosGo (benv : BEnv) (layerType : String) :
    List LinkedLayer → Nat →
    Except String (List CommitLinkedLayerInfo) × List IngestEvent
  | [], _ => (.ok [], [])
  | layer :: rest, i =>
    if layer.history.emptyLayer ≠ (layer.blobPath = "") then
      (.error ("internal error: layer-is-empty = "
        ++ toString layer.history.emptyLayer
        ++ ", but content path is " ++ layer.blobPath), [])
    else if layer.history.emptyLayer then
      makeLinkedLayerInfosGo benv layerType rest (i + 1)
    else
      match benv.stat layer.blobPath with
      | none =>
        (.error ("checking if layer content " ++ layer.blobPath
          ++ " is a directory"), [])
      | some st =>
        let token := "(" ++ layerType ++ " " ++ toString (i + 1) ++ ")"
        let (info, ev) :=
          if st.isDir then
            let bytes := benv.tarDir layer.blobPath
            (({ layerID := token,
                linkedLayer := { layer with blobPath := benv.tmpName layer.blobPath },
                uncompressedDigest := benv.hash bytes,
                size := Int.ofNat bytes.length } : CommitLinkedLayerInfo),
             IngestEvent.archivedDir layer.blobPath)
          else
            let bytes := benv.fileBytes layer.blobPath
            (({ layerID := token, linkedLayer := layer,
                uncompressedDigest := benv.hash bytes,
                size := Int.ofNat bytes.length } : CommitLinkedLayerInfo),
             IngestEvent.digestedFile layer.blobPath)
        match makeLinkedLayerInfosGo benv layerType rest (i + 1) with
        | (.ok infos, evs) => (.ok (info :: infos), ev :: evs)
        | (.error e, evs) => (.error e, ev :: evs)

def makeLinkedLayerInfos (benv : BEnv) (layers : List LinkedLayer)
    (layerType : String) :
    Except String (List CommitLinkedLayerInfo) × List IngestEvent :=
  makeLinkedLayerInfosGo benv layerType layers 0

/-- `CommitOptions`, the fields `makeContainerImageRef` reads.
`compatSetParent` is `true` for `types.OptionalBoolTrue`.
`overrideErr` abstracts whether `config.Override` with the given
`OverrideChanges`/`OverrideConfig` would fail. -/
structure CommitOptions where
  preferredManifestType : String
  compression : Compression
  squash : Bool
  convert : Bool
  omitHistory : Bool
  emptyLayer : Bool
  historyTimestamp : Option Nat
  prependedLinkedLayers : List LinkedLayer
  appendedLinkedLayers : List LinkedLayer
  unsetEnvs : List String
  blobDirectory : String
  extraImageContent : List (String × String)
  compatSetParent : Bool
  overrideErr : Option String
deriving Repr

/-- The `Builder` fields `makeContainerImageRef` reads.  The two live
configuration documents are carried decoded (`json.Marshal` then decode
round-trips them). -/
structure Builder where
  fromImage : String
  fromImageID : String
  containerID : String
  imageCreatedBy : String
  dockerShell : List String
  imageHistoryComment : String
  annots : List (String × String)
  oimage0 : OImage
  dimage0 : DImage
  prependedLinkedLayers : List LinkedLayer
  appendedLinkedLayers : List LinkedLayer
  prependedEmptyLayers : List V1History
  appendedEmptyLayers : List V1History
deriving Repr

/-- `Builder.UnsetEnv` (config.go lines 290-302), applied to both
documents. -/
def unsetEnvList (k : String) (s : List String) : List String :=
  s.filter (fun e => !(strHasPrefix e (k ++ "=")))

def unsetEnvBuilder (k : String) (b : Builder) : Builder :=
  { b with
    oimage0 := { b.oimage0 with cfgEnv := unsetEnvList k b.oimage0.cfgEnv },
    dimage0 := { b.dimage0 with cfgEnv := unsetEnvList k b.dimage0.cfgEnv } }

def isHexDigit (c : Char) : Bool :=
  (Nat.ble 48 c.toNat && Nat.ble c.toNat 57)
    || (Nat.ble 97 c.toNat && Nat.ble c.toNat 102)

/-- `digest.NewDigestFromEncoded(digest.Canonical, s).Validate() == nil`:
64 lowercase hex characters. -/
def validEncodedDigest (s : String) : Bool :=
  s.length == 64 && s.toList.all isHexDigit

/-- `makeContainerImageRef` (image.go lines 1183-1302).  The result on
success is the `containerImageRef` state as a `Ctx`, paired with the
linked-layer ingestion trace. -/
def makeContainerImageRef (benv : BEnv) (b : Builder) (options : CommitOptions) :
    Except String Ctx × List IngestEvent :=
  if (options.prependedLinkedLayers.length > 0
        ∨ options.appendedLinkedLayers.length > 0)
      ∧ (options.convert = true ∨ options.squash = true) then
    (.error "can't add prebuilt layers and produce an image with only one layer, at the same time",
     [])
  else
    match benv.container with
    | none => (.error ("locating container " ++ b.containerID), [])
    | some (cid, _names, topLayerID) =>
      let manifestType :=
        if options.preferredManifestType = "" then ociMTImageManifest
        else options.preferredManifestType
      let b := options.unsetEnvs.foldl (fun b k => unsetEnvBuilder k b) b
      let createdBy0 := b.imageCreatedBy
      let createdBy1 :=
        if createdBy0 = "" then String.intercalate " " b.dockerShell else createdBy0
      let createdBy := if createdBy1 = "" then "/bin/sh" else createdBy1
      let parent :=
        if b.fromImageID ≠ "" ∧ validEncodedDigest b.fromImageID
        then "sha256:" ++ b.fromImageID else ""
      let forceOmitHistory : Bool :=
        b.fromImageID != "" && !options.omitHistory
          && b.oimage0.history.length == 0 && b.oimage0.diffIDs.length != 0
      match makeLinkedLayerInfos benv
          (b.prependedLinkedLayers ++ options.prependedLinkedLayers)
          "prepended layer" with
      | (.error e, ev1) => (.error e, ev1)
      | (.ok preInfos, ev1) =>
        match makeLinkedLayerInfos benv
            (options.appendedLinkedLayers ++ b.appendedLinkedLayers)
            "appended layer" with
        | (.error e, ev2) => (.error e, ev1 ++ ev2)
        | (.ok postInfos, ev2) =>
          let created := options.historyTimestamp
          let fixT := fun (h : V1History) =>
            match created with
            | some t => { h with created := some t }
            | none => h
          let fixL := fun (l : CommitLinkedLayerInfo) =>
            match created with
            | some t =>
              { l with linkedLayer :=
                  { l.linkedLayer with history :=
                      { l.linkedLayer.history with created := some t } } }
            | none => l
          (.ok
            { fromImageName := b.fromImage
              fromImageID := b.fromImageID
              compression := options.compression
              containerID := cid
              layerID := topLayerID
              oimage0 := b.oimage0
              dimage0 := b.dimage0
              created := created
              createdBy := createdBy
              historyComment := b.imageHistoryComment
              annots := b.annots
              preferredManifestType := manifestType
              squash := options.squash
              convert := options.convert
              omitHistory := options.omitHistory || forceOmitHistory
              emptyLayer := options.emptyLayer && !options.squash && !options.convert
              parent := parent
              blobDirectory := options.blobDirectory
              preEmptyLayers := b.prependedEmptyLayers.map fixT
              preLayers := preInfos.map fixL
              postEmptyLayers := b.appendedEmptyLayers.map fixT
              postLayers := postInfos.map fixL
              extraImageContent := options.extraImageContent
              compatSetParent := options.compatSetParent
              store := benv.store
              overrideErr := options.overrideErr }, ev1 ++ ev2)

/-! ### Concrete instantiations

A concrete executable collaborator record and small concrete commit
states, used by the witnesses and counterexamples below.  The digest
function is chosen injective (the identity on streams), standing in for
a collision-free hash. -/

def defEnv : Env :=
  ⟨fun b => b,
   fun b => 31 :: b,
   fun _ b => b,
   fun id => strBytes id,
   [9],
   [8],
   strBytes,
   fun n t c => 0 :: (strBytes n ++ (1 :: t :: c) ++ [2]),
   [5, 5]⟩

def emptyOImage : OImage := ⟨none, "", [], [], [], ""⟩

def emptyDImage : DImage := ⟨0, "", "", "", [], [], [], ""⟩

def imageSrcDefault : ImageSrc :=
  ⟨"", [], "", "", [], [], emptyOImage, emptyDImage, [], []⟩

/-- A minimal committable state: a single read-write layer `T` with no
parent, history timestamp set. -/
def baseCtx : Ctx :=
  { fromImageName := ""
    fromImageID := ""
    compression := .uncompressed
    containerID := "cid"
    layerID := "T"
    oimage0 := emptyOImage
    dimage0 := emptyDImage
    created := some 5
    createdBy := "/bin/sh"
    historyComment := ""
    annots := []
    preferredManifestType := ociMTImageManifest
    squash := false
    convert := false
    omitHistory := false
    emptyLayer := false
    parent := ""
    blobDirectory := ""
    preEmptyLayers := []
    preLayers := []
    postEmptyLayers := []
    postLayers := []
    extraImageContent := []
    compatSetParent := false
    store := [⟨"T", "", [], 0⟩]
    overrideErr := none }

/-- Commit state with a parent layer `P` (known uncompressed digest, so
it takes the reuse fast path) and one base-image history entry. -/
def c1ctx : Ctx :=
  { baseCtx with
    store := [⟨"T", "P", [], 0⟩, ⟨"P", "", [7], 3⟩],
    oimage0 := { emptyOImage with history := [⟨some 1, "base", "", "x", false⟩] },
    dimage0 := { emptyDImage with history := [⟨1, "base", "", "x", false⟩] } }

def c1run : Except String ImageSrc × List IOEvent :=
  newImageSource defEnv c1ctx 0 []

def c1out : ImageSrc :=
  match c1run.1 with
  | .ok o => o
  | .error _ => imageSrcDefault

/-- The layer plan `buildLayerList` produces for `c1ctx`. -/
def c2plan : LayerPlan := ⟨["P", "T"], ["P"], []⟩

def c2parentLayer : StorageLayer := ⟨"P", "", [7], 3⟩

/-- Commit state with two extra-content entries (whose Go-map iteration
order varies between runs). -/
def c3ctx : Ctx :=
  { baseCtx with extraImageContent := [("a", "fa"), ("b", "fb")] }

def c3manifestOf (r : Except String ImageSrc × List IOEvent) : Option String :=
  match r.1 with
  | .ok o => some o.manifest
  | .error _ => none

def c3configOf (r : Except String ImageSrc × List IOEvent) : Option String :=
  match r.1 with
  | .ok o => some o.config
  | .error _ => none

/-- Commit state requesting bzip2 compression, with extra content (so a
synthesized layer is planned). -/
def c4ctx : Ctx :=
  { baseCtx with compression := .bzip2, extraImageContent := [("p", "f")] }

def c4plan : LayerPlan := ⟨["T", synthesizedLayerID], [], []⟩

def c4topLayer : StorageLayer := ⟨"T", "", [], 0⟩

/-- Builder-side collaborators: one ordinary file at `/blob`. -/
def defBEnv : BEnv :=
  ⟨some ("cid", [], "T"),
   fun p => if p = "/blob" then some ⟨false⟩ else none,
   strBytes,
   strBytes,
   fun b => b,
   fun p => p ++ ".tmp",
   [⟨"T", "", [], 0⟩]⟩

/-- A builder with one linked layer registered on the Builder itself
(not in the commit options). -/
def c5Builder : Builder :=
  { fromImage := ""
    fromImageID := ""
    containerID := "cid"
    imageCreatedBy := ""
    dockerShell := []
    imageHistoryComment := ""
    annots := []
    oimage0 := emptyOImage
    dimage0 := emptyDImage
    prependedLinkedLayers := [⟨"/blob", ⟨none, "", "", "", false⟩⟩]
    appendedLinkedLayers := []
    prependedEmptyLayers := []
    appendedEmptyLayers := [] }

/-- Squash requested; no linked layers in the options themselves. -/
def c5Options : CommitOptions :=
  { preferredManifestType := ""
    compression := .uncompressed
    squash := true
    convert := false
    omitHistory := false
    emptyLayer := false
    historyTimestamp := none
    prependedLinkedLayers := []
    appendedLinkedLayers := []
    unsetEnvs := []
    blobDirectory := ""
    extraImageContent := []
    compatSetParent := false
    overrideErr := none }

def c5Result : Except String Ctx × List IngestEvent :=
  makeContainerImageRef defBEnv c5Builder c5Options

def c5Ref : Ctx :=
  match c5Result.1 with
  | .ok r => r
  | .error _ => baseCtx

/-- Parent identity where the claim's prefix test and the code's prefix
test disagree: the id `"ab"` is not a prefix of the name `"a"` (claim
condition holds) but the name `"a"` IS a prefix of the id `"ab"` (so the
code skips the comment). -/
def c6ctx : Ctx :=
  { baseCtx with parent := "ab", fromImageID := "ab", fromImageName := "a" }

def c6Res : Except String (OImage × DImage) :=
  buildHistory c6ctx 5 initRunSt emptyOImage emptyDImage

def c6o : OImage :=
  match c6Res with
  | .ok p => p.1
  | .error _ => emptyOImage

def c6d : DImage :=
  match c6Res with
  | .ok p => p.2
  | .error _ => emptyDImage

/-- Commit state with one extra-content entry, used to exercise the
synthesized-layer history entry end to end. -/
def c7ctx : Ctx :=
  { baseCtx with extraImageContent := [("p", "f")] }

def c7run : Except String ImageSrc × List IOEvent :=
  newImageSource defEnv c7ctx 0 ["p"]

def c7out : ImageSrc :=
  match c7run.1 with
  | .ok o => o
  | .error _ => imageSrcDefault

/-- A loop state in which a synthesized extra-content diff has been
produced, for the stage-level witness. -/
def c7st : RunSt :=
  { initRunSt with extraDiff := some [0], extraDiffDigest := [1, 2] }

def c7stRes : Except String (OImage × DImage) :=
  buildHistory baseCtx 5 c7st emptyOImage emptyDImage

def c7stO : OImage :=
  match c7stRes with
  | .ok p => p.1
  | .error _ => emptyOImage

def c7stD : DImage :=
  match c7stRes with
  | .ok p => p.2
  | .error _ => emptyDImage

/-- A loaded Docker document whose image-level `Config` differs from
`ContainerConfig`, for the snapshot claim. -/
def c9b0 : DockerDoc := ⟨⟨[], "", ""⟩, .sep ⟨["old"], "", ""⟩, "1.0"⟩

/-- A blob store in which both the external blob directory and the
staging directory hold a file named by the requested digest, with
different sizes. -/
def c10fs : BlobFS := ⟨[(("ext", "7"), 10), (("stg", "7"), 20)]⟩

def c10src : SrcInfo := ⟨"cfg", [99], [], "ext", "stg"⟩

/-- Commit options carrying a linked layer themselves (used against the
cross-option rejection). -/
def c5wOptions : CommitOptions :=
  { c5Options with prependedLinkedLayers := [⟨"/blob", ⟨none, "", "", "", false⟩⟩] }

/-! ## Theorems -/

theorem resetEnv_foldl (expand : String → (String → String) → String)
    (k : String) (g : String → String) :
    ∀ (s : List String) (acc : List String) (v : String),
      s.foldl (resetStep expand k g) (acc, v) =
        (acc ++ s.filter (fun e => !(strHasPrefix e (k ++ "="))),
         expandTimes expand g s.length v) := by
  intro s
  induction s with
  | nil => intro acc v; simp [expandTimes]
  | cons e rest ih =>
    intro acc v
    simp only [List.foldl_cons, resetStep, List.filter_cons]
    by_cases h : strHasPrefix e (k ++ "=") = true
    · simp [h, ih, expandTimes]
    · simp only [Bool.not_eq_true] at h
      simp [h, ih, expandTimes, List.append_assoc]

/-- Structure of `resetEnv`: the surviving entries are exactly those not
starting with `k=`, and the appended value is `v` expanded once per
entry of the PRE-mutation list. -/
theorem resetEnv_eq (expand : String → (String → String) → String)
    (k v : String) (s : List String) :
    resetEnv expand k v s =
      (s.filter (fun e => !(strHasPrefix e (k ++ "=")))
         ++ [k ++ "=" ++ expandTimes expand (getenvFrom s) s.length v],
       expandTimes expand (getenvFrom s) s.length v) := by
  unfold resetEnv
  rw [resetEnv_foldl]
  simp

/-- C8 (counterexample): on an empty pre-mutation environment, `SetEnv`
appends `k=$X` UNEXPANDED, while the claim (one expansion against the
pre-mutation list, with the name-fallback, for every list including the
empty one) would produce `k=X`. -/
theorem c8_setenv_counterexample :
    SetEnv simpleExpand "k" "$X" ⟨[], []⟩ = ⟨["k=$X"], ["k=$X"]⟩ ∧
    setEnvSpec simpleExpand "k" "$X" ⟨[], []⟩ = ⟨["k=X"], ["k=X"]⟩ ∧
    SetEnv simpleExpand "k" "$X" ⟨[], []⟩ ≠ setEnvSpec simpleExpand "k" "$X" ⟨[], []⟩ :=
  ⟨by decide, by decide, by decide⟩

/-- C8 (amended): `SetEnv(k, v)` removes every entry beginning with
`k=` from both env lists and appends a single `k=` entry, but the value
appended is `v` expanded once PER ENTRY of the pre-mutation list (so not
expanded at all when that list is empty), with the unset-variable lookup
falling back to the variable name; the Docker-side append starts from
the value the OCI pass left behind and expands it further, once per
Docker entry. -/
theorem c8_setenv_expansion (expand : String → (String → String) → String)
    (k v : String) (b : EnvPair) :
    SetEnv expand k v b =
      ⟨b.ociEnv.filter (fun e => !(strHasPrefix e (k ++ "=")))
          ++ [k ++ "=" ++ expandTimes expand (getenvFrom b.ociEnv) b.ociEnv.length v],
       b.dockerEnv.filter (fun e => !(strHasPrefix e (k ++ "=")))
          ++ [k ++ "=" ++ expandTimes expand (getenvFrom b.dockerEnv) b.dockerEnv.length
                (expandTimes expand (getenvFrom b.ociEnv) b.ociEnv.length v)]⟩ := by
  unfold SetEnv
  simp only [resetEnv_eq]

/-- C9 (counterexample): after `fixupConfig`, `SetCmd` (which writes
through `Docker.Config`) CHANGES `Docker.ContainerConfig` as well,
because `fixupConfig` pointed `Config` at `ContainerConfig`; the
snapshot is not left unchanged. -/
theorem c9_container_config_counterexample :
    (fixupConfigDocker c9b0).containerConfig = ⟨["old"], "", ""⟩ ∧
    (setCmdDocker ["new"] (fixupConfigDocker c9b0)).containerConfig = ⟨["new"], "", ""⟩ ∧
    (setCmdDocker ["new"] (fixupConfigDocker c9b0)).containerConfig ≠
      (fixupConfigDocker c9b0).containerConfig :=
  ⟨by decide, by decide, by decide⟩

/-- C9 (amended): `fixupConfig` copies the loaded image-level `Config`
into `ContainerConfig` and then points `Config` at `ContainerConfig`;
from then on every mutator sequence applied through `Config` keeps the
two documents identical (reading `Config` always yields exactly
`ContainerConfig`), rather than leaving the snapshot unchanged. -/
theorem c9_container_config_alias (d0 : DockerDoc)
    (fs : List (DockerCfg → DockerCfg)) :
    (fixupConfigDocker d0).containerConfig =
      (readConfig d0).getD d0.containerConfig ∧
    readConfig (fs.foldl (fun st f => writeConfig f st) (fixupConfigDocker d0)) =
      some ((fs.foldl (fun st f => writeConfig f st)
        (fixupConfigDocker d0)).containerConfig) := by
  constructor
  · unfold fixupConfigDocker readConfig
    cases h : d0.configPtr <;> simp
  · have ha : ∀ (gs : List (DockerCfg → DockerCfg)) (st : DockerDoc),
        st.configPtr = .aliased →
        (gs.foldl (fun st f => writeConfig f st) st).configPtr = .aliased := by
      intro gs
      induction gs with
      | nil => intro st h; simpa using h
      | cons f rest ih =>
        intro st h
        simp only [List.foldl_cons]
        apply ih
        unfold writeConfig
        rw [h]
    have hp : (fixupConfigDocker d0).configPtr = .aliased := by
      unfold fixupConfigDocker
      cases d0.configPtr <;> rfl
    have h2 := ha fs (fixupConfigDocker d0) hp
    unfold readConfig
    rw [h2]

/-- C10: in `GetBlob`, for a digest that is neither the config digest
nor in the blob-layer reuse index, the external blob directory is
searched before the per-commit staging directory, so when both hold a
file named by the digest the result (and its stat size) comes from the
external directory. -/
theorem c10_external_blob_dir_first (fs : BlobFS) (src : SrcInfo) (d : Digest)
    (sz1 sz2 : Int)
    (h1 : d ≠ src.configDigest)
    (h2 : src.blobLayers.find? (fun e => e.1 == d) = none)
    (h3 : fsLookup fs src.blobDirectory (encodedOf d) = some sz1)
    (_h4 : fsLookup fs src.path (encodedOf d) = some sz2) :
    getBlob fs src d = .ok (.file src.blobDirectory, sz1) := by
  unfold getBlob
  rw [if_neg h1, h2, h3]

theorem c10_external_blob_dir_first_witness :
    ([7] : Digest) ≠ c10src.configDigest ∧
    fsLookup c10fs c10src.blobDirectory (encodedOf [7]) = some 10 ∧
    fsLookup c10fs c10src.path (encodedOf [7]) = some 20 ∧
    getBlob c10fs c10src [7] = .ok (.file "ext", 10) :=
  ⟨by decide, by decide, by decide,
   c10_external_blob_dir_first c10fs c10src [7] 10 20 (by decide) (by decide)
     (by decide) (by decide)⟩

/-- C2: a planned parent layer whose uncompressed digest storage knows,
in a mode that is neither squash nor confidential-workload, takes the
reuse fast path: the manifest descriptors and the diff-ID both record
the storage-reported uncompressed digest with the storage-reported size,
the media types are the uncompressed variants, a `blobLayers` index
entry keyed by that digest is added, and nothing is streamed or staged
(the staged-file set and the I/O trace are untouched). -/
theorem c2_parent_reuse_fast_path (env : Env) (ctx : Ctx) (plan : LayerPlan)
    (eff : Nat) (order : List String) (st : RunSt) (L : String)
    (ly : StorageLayer)
    (hsq : ctx.squash = false) (hcv : ctx.convert = false)
    (hapi : plan.apiLayerIDs.contains L = false)
    (hsynth : L ≠ synthesizedLayerID)
    (hlook : storeLayerLookup ctx.store L = some ly)
    (hid : ly.id = L)
    (hpar : plan.parentLayerIDs.contains L = true)
    (hdg : ly.uncompressedDigest ≠ []) :
    processLayer env ctx plan eff order st L = .ok { st with
      oLayers := st.oLayers
        ++ [⟨ociMTImageLayer, ly.uncompressedDigest, ly.uncompressedSize⟩],
      dLayers := st.dLayers
        ++ [⟨dockerMTUncompressedLayer, ly.uncompressedDigest, ly.uncompressedSize⟩],
      oDiffIDs := st.oDiffIDs ++ [ly.uncompressedDigest],
      dDiffIDs := st.dDiffIDs ++ [ly.uncompressedDigest],
      blobLayers := st.blobLayers
        ++ [(ly.uncompressedDigest, ⟨L, ly.uncompressedSize⟩)] } := by
  have hphase : lookupLayerPhase env ctx plan eff order st L =
      .ok (ly.id, ly.uncompressedDigest, ly.uncompressedSize, st) := by
    unfold lookupLayerPhase
    rw [if_neg (by rw [hapi]; simp), if_neg hsynth, hlook]
  have hred : processLayer env ctx plan eff order st L =
      processLayerRest env ctx plan eff order ly.id ly.uncompressedDigest
        ly.uncompressedSize st := by
    unfold processLayer
    rw [hphase]
  rw [hred]
  unfold processLayerRest
  rw [if_pos ⟨hcv, hsq, by rw [hid]; exact hpar, hdg⟩]
  rw [hid]

theorem c2_parent_reuse_fast_path_witness :
    storeLayerLookup c1ctx.store "P" = some c2parentLayer ∧
    c2plan.parentLayerIDs.contains "P" = true ∧
    c2parentLayer.uncompressedDigest ≠ [] ∧
    processLayer defEnv c1ctx c2plan 5 [] initRunSt "P" = .ok { initRunSt with
      oLayers := [⟨ociMTImageLayer, [7], 3⟩],
      dLayers := [⟨dockerMTUncompressedLayer, [7], 3⟩],
      oDiffIDs := [[7]],
      dDiffIDs := [[7]],
      blobLayers := [([7], ⟨"P", 3⟩)] } :=
  ⟨by decide, by decide, by decide, by
    have h := c2_parent_reuse_fast_path defEnv c1ctx c2plan 5 [] initRunSt "P"
      c2parentLayer rfl rfl (by decide) (by decide) (by decide) rfl
      (by decide) (by decide)
    exact h⟩

/-- C5 (counterexample): with a linked layer registered on the Builder
itself (none in the options) and `Squash` set, `makeContainerImageRef`
does NOT fail — it ingests the builder-registered layer (reading its
bytes) and returns a reference, because the rejection only inspects
`options.PrependedLinkedLayers` / `options.AppendedLinkedLayers`. -/
theorem c5_linked_layer_exclusion_counterexample :
    c5Builder.prependedLinkedLayers.length
      + c5Builder.appendedLinkedLayers.length > 0 ∧
    c5Options.squash = true ∧
    c5Options.prependedLinkedLayers.length
      + c5Options.appendedLinkedLayers.length = 0 ∧
    makeContainerImageRef defBEnv c5Builder c5Options =
      (.ok c5Ref, [.digestedFile "/blob"]) :=
  ⟨by decide, rfl, rfl, by decide⟩

/-- C5 (amended): only linked layers supplied in the OPTIONS trigger the
rejection: when `options.PrependedLinkedLayers` or
`options.AppendedLinkedLayers` is non-empty and Squash or Convert is
set, `makeContainerImageRef` fails with the inconsistent-commit-request
error before any ingestion of linked layers; builder-registered linked
layers do not trigger it. -/
theorem c5_linked_layer_exclusion (benv : BEnv) (b : Builder)
    (options : CommitOptions)
    (h1 : options.prependedLinkedLayers.length > 0
      ∨ options.appendedLinkedLayers.length > 0)
    (h2 : options.convert = true ∨ options.squash = true) :
    makeContainerImageRef benv b options =
      (.error "can't add prebuilt layers and produce an image with only one layer, at the same time",
       []) := by
  unfold makeContainerImageRef
  rw [if_pos ⟨h1, h2⟩]

theorem c5_linked_layer_exclusion_witness :
    c5wOptions.prependedLinkedLayers.length > 0 ∧
    c5wOptions.squash = true ∧
    makeContainerImageRef defBEnv c5Builder c5wOptions =
      (.error "can't add prebuilt layers and produce an image with only one layer, at the same time",
       []) :=
  ⟨by decide, rfl,
   c5_linked_layer_exclusion defBEnv c5Builder c5wOptions
     (Or.inl (by decide)) (Or.inr rfl)⟩

theorem modifyCommentO_get_ne (c : String) (l : List V1History) (i j : Nat)
    (h : j ≠ i) : (modifyCommentO c l i).get? j = l.get? j := by
  induction l generalizing i j with
  | nil => simp [modifyCommentO]
  | cons hd tl ih =>
    cases i with
    | zero =>
      cases j with
      | zero => exact absurd rfl h
      | succ j => simp [modifyCommentO]
    | succ i =>
      cases j with
      | zero => simp [modifyCommentO]
      | succ j =>
        simp only [modifyCommentO, List.get?_cons_succ]
        exact ih i j (fun hh => h (by rw [hh]))

theorem modifyCommentO_get_eq (c : String) (l : List V1History) (i : Nat) :
    (modifyCommentO c l i).get? i =
      (l.get? i).map (fun h => { h with comment := h.comment ++ c }) := by
  induction l generalizing i with
  | nil => simp [modifyCommentO]
  | cons hd tl ih =>
    cases i with
    | zero => simp [modifyCommentO]
    | succ i =>
      simp only [modifyCommentO, List.get?_cons_succ]
      exact ih i

theorem modifyCommentD_get_ne (c : String) (l : List V2S2History) (i j : Nat)
    (h : j ≠ i) : (modifyCommentD c l i).get? j = l.get? j := by
  induction l generalizing i j with
  | nil => simp [modifyCommentD]
  | cons hd tl ih =>
    cases i with
    | zero =>
      cases j with
      | zero => exact absurd rfl h
      | succ j => simp [modifyCommentD]
    | succ i =>
      cases j with
      | zero => simp [modifyCommentD]
      | succ j =>
        simp only [modifyCommentD, List.get?_cons_succ]
        exact ih i j (fun hh => h (by rw [hh]))

theorem modifyCommentD_get_eq (c : String) (l : List V2S2History) (i : Nat) :
    (modifyCommentD c l i).get? i =
      (l.get? i).map (fun h => { h with comment := h.comment ++ c }) := by
  induction l generalizing i with
  | nil => simp [modifyCommentD]
  | cons hd tl ih =>
    cases i with
    | zero => simp [modifyCommentD]
    | succ i =>
      simp only [modifyCommentD, List.get?_cons_succ]
      exact ih i

theorem modifyCommentO_length (c : String) (l : List V1History) (i : Nat) :
    (modifyCommentO c l i).length = l.length := by
  induction l generalizing i with
  | nil => simp [modifyCommentO]
  | cons hd tl ih =>
    cases i with
    | zero => simp [modifyCommentO]
    | succ i => simp [modifyCommentO, ih]

theorem modifyCommentD_length (c : String) (l : List V2S2History) (i : Nat) :
    (modifyCommentD c l i).length = l.length := by
  induction l generalizing i with
  | nil => simp [modifyCommentD]
  | cons hd tl ih =>
    cases i with
    | zero => simp [modifyCommentD]
    | succ i => simp [modifyCommentD, ih]

theorem get_append_add {α : Type} (l1 l2 : List α) (n : Nat) :
    (l1 ++ l2).get? (l1.length + n) = l2.get? n := by
  induction l1 with
  | nil => simp
  | cons a t ih => simpa [Nat.succ_add] using ih

/-- Inversion of a successful `buildHistory`: the resulting documents
are the assembled histories with the `FROM` comment applied at the OCI
base index. -/
theorem buildHistory_ok_inv (ctx : Ctx) (eff : Nat) (st : RunSt)
    (oi : OImage) (di : DImage) (o : OImage) (d : DImage)
    (homit : ctx.omitHistory = false)
    (hb : buildHistory ctx eff st oi di = .ok (o, d)) :
    o = historyFinalO ctx eff st oi ∧ d = historyFinalD ctx eff st oi di := by
  unfold buildHistory at hb
  rw [if_neg (by simp [homit])] at hb
  split at hb
  · exact absurd hb (by simp)
  · simp only [Except.ok.injEq, Prod.mk.injEq] at hb
    exact ⟨hb.1.symm, hb.2.symm⟩

/-- C6 (counterexample): with parent id `"ab"`, parent name `"a"` and
`parent` string `"ab"`, the claim's trigger condition holds (the id is
not a prefix of the name, the name is non-empty, `parent` contains the
id), yet no `FROM` comment is appended in either format — the code's
condition tests the opposite prefix direction and fails here. -/
theorem c6_from_comment_counterexample :
    strContains c6ctx.parent c6ctx.fromImageID = true ∧
    c6ctx.fromImageName ≠ "" ∧
    strHasPrefix c6ctx.fromImageName c6ctx.fromImageID = false ∧
    buildHistory c6ctx 5 initRunSt emptyOImage emptyDImage = .ok (c6o, c6d) ∧
    c6o.history.map (fun h => h.comment) = [""] ∧
    c6d.history.map (fun h => h.comment) = [""] :=
  ⟨by decide, by decide, by decide, by decide, by decide, by decide⟩

/-- C6 (amended): during history assembly, when `parent` contains the
parent image id, the parent image name is non-empty, and the parent
image NAME is not a prefix of the parent image ID (the code's test:
`!strings.HasPrefix(fromImageID, fromImageName)`), the string
`FROM <name>` — with a leading space exactly when the existing comment
is non-empty — is appended to the comment of the entry at the base index
in both formats (the Docker side reuses the index and the comment
computed from the OCI side), and every other entry is unchanged; when
any condition fails, every comment is unchanged. -/
theorem c6_from_comment (ctx : Ctx) (eff : Nat) (st : RunSt)
    (oi : OImage) (di : DImage) (o : OImage) (d : DImage)
    (homit : ctx.omitHistory = false)
    (hb : buildHistory ctx eff st oi di = .ok (o, d)) :
    (∀ j, j ≠ oi.history.length →
      o.history.get? j = (assembledHistO ctx eff st oi).get? j ∧
      d.history.get? j = (assembledHistD ctx eff st di).get? j) ∧
    (∀ h0, (assembledHistO ctx eff st oi).get? oi.history.length = some h0 →
      (o.history.get? oi.history.length).map (fun h => h.comment) =
        some (h0.comment ++
          (if strContains ctx.parent ctx.fromImageID = true ∧
              ctx.fromImageName ≠ "" ∧
              strHasPrefix ctx.fromImageID ctx.fromImageName = false
           then (if h0.comment ≠ "" then " " else "") ++ "FROM " ++ ctx.fromImageName
           else "")) ∧
      (d.history.get? oi.history.length).map (fun h => h.comment) =
        ((assembledHistD ctx eff st di).get? oi.history.length).map
          (fun hd => hd.comment ++
            (if strContains ctx.parent ctx.fromImageID = true ∧
                ctx.fromImageName ≠ "" ∧
                strHasPrefix ctx.fromImageID ctx.fromImageName = false
             then (if h0.comment ≠ "" then " " else "") ++ "FROM " ++ ctx.fromImageName
             else ""))) := by
  obtain ⟨ho, hd⟩ := buildHistory_ok_inv ctx eff st oi di o d homit hb
  subst ho
  subst hd
  have hfin : ∀ j, (historyFinalO ctx eff st oi).history.get? j =
      (modifyCommentO (historyFromComment ctx eff st oi)
        (assembledHistO ctx eff st oi) oi.history.length).get? j := by
    intro j; rfl
  constructor
  · intro j hj
    constructor
    · rw [hfin j]
      exact modifyCommentO_get_ne _ _ _ _ hj
    · show (modifyCommentD (historyFromComment ctx eff st oi)
        (assembledHistD ctx eff st di) oi.history.length).get? j = _
      exact modifyCommentD_get_ne _ _ _ _ hj
  · intro h0 hh0
    have hfc : historyFromComment ctx eff st oi =
        (if strContains ctx.parent ctx.fromImageID = true ∧
            ctx.fromImageName ≠ "" ∧
            strHasPrefix ctx.fromImageID ctx.fromImageName = false
         then (if h0.comment ≠ "" then " " else "") ++ "FROM " ++ ctx.fromImageName
         else "") := by
      unfold historyFromComment
      rw [hh0]
      unfold fromCommentOf
      rfl
    refine ⟨?_, ?_⟩
    · rw [hfin, modifyCommentO_get_eq, hh0, hfc]
      simp
    · show ((modifyCommentD (historyFromComment ctx eff st oi)
        (assembledHistD ctx eff st di) oi.history.length).get?
          oi.history.length).map (fun h => h.comment) = _
      rw [modifyCommentD_get_eq, hfc]
      cases (assembledHistD ctx eff st di).get? oi.history.length <;> simp

theorem c6_from_comment_witness :
    c6ctx.omitHistory = false ∧
    buildHistory c6ctx 5 initRunSt emptyOImage emptyDImage = .ok (c6o, c6d) ∧
    c6o.history.get? 1 = (assembledHistO c6ctx 5 initRunSt emptyOImage).get? 1 :=
  ⟨rfl, by decide,
   ((c6_from_comment c6ctx 5 initRunSt emptyOImage emptyDImage c6o c6d rfl
     (by decide)).1 1 (by decide)).1⟩

theorem modifyCommentO_get_proj (c : String) (l : List V1History) (i j : Nat) :
    ((modifyCommentO c l i).get? j).map
        (fun h => (h.createdBy, h.emptyLayer, h.created)) =
      (l.get? j).map (fun h => (h.createdBy, h.emptyLayer, h.created)) := by
  by_cases hj : j = i
  · subst hj
    rw [modifyCommentO_get_eq]
    cases l.get? j <;> simp
  · rw [modifyCommentO_get_ne _ _ _ _ hj]

theorem modifyCommentD_get_proj (c : String) (l : List V2S2History) (i j : Nat) :
    ((modifyCommentD c l i).get? j).map
        (fun h => (h.createdBy, h.emptyLayer, h.created)) =
      (l.get? j).map (fun h => (h.createdBy, h.emptyLayer, h.created)) := by
  by_cases hj : j = i
  · subst hj
    rw [modifyCommentD_get_eq]
    cases l.get? j <;> simp
  · rw [modifyCommentD_get_ne _ _ _ _ hj]

/-- Positions of the commit entry and the synthesized-content entry in
the assembled OCI history when an extra-content diff was produced. -/
theorem assembledHistO_at (ctx : Ctx) (eff : Nat) (st : RunSt) (oi : OImage)
    (bytes : List Nat) (hx : st.extraDiff = some bytes) :
    (assembledHistO ctx eff st oi).get?
        (oi.history.length + ctx.preEmptyLayers.length + ctx.preLayers.length) =
      some ⟨some eff, ctx.createdBy, oi.author, ctx.historyComment, ctx.emptyLayer⟩ ∧
    (assembledHistO ctx eff st oi).get?
        (oi.history.length + ctx.preEmptyLayers.length + ctx.preLayers.length + 1) =
      some ⟨some eff, addCreatedBy st.extraDiffDigest, "", "", false⟩ ∧
    (assembledHistO ctx eff st oi).length =
      oi.history.length + ctx.preEmptyLayers.length + ctx.preLayers.length + 2
        + ctx.postEmptyLayers.length + ctx.postLayers.length := by
  have lenA : (appendHistoryPair ctx.preEmptyLayers true).1.length
      = ctx.preEmptyLayers.length := by simp [appendHistoryPair]
  have lenB : (linkedHistO ctx.preLayers).length = ctx.preLayers.length := by
    simp [linkedHistO]
  have lenC : (appendHistoryPair ctx.postEmptyLayers true).1.length
      = ctx.postEmptyLayers.length := by simp [appendHistoryPair]
  have lenD : (linkedHistO ctx.postLayers).length = ctx.postLayers.length := by
    simp [linkedHistO]
  unfold assembledHistO
  rw [hx]
  simp only [List.append_assoc]
  refine ⟨?_, ?_, ?_⟩
  · have hidx : oi.history.length + ctx.preEmptyLayers.length + ctx.preLayers.length
        = oi.history.length + ((appendHistoryPair ctx.preEmptyLayers true).1.length
          + ((linkedHistO ctx.preLayers).length + 0)) := by
      rw [lenA, lenB]; omega
    rw [hidx, get_append_add, get_append_add, get_append_add]
    rfl
  · have hidx : oi.history.length + ctx.preEmptyLayers.length + ctx.preLayers.length + 1
        = oi.history.length + ((appendHistoryPair ctx.preEmptyLayers true).1.length
          + ((linkedHistO ctx.preLayers).length + 1)) := by
      rw [lenA, lenB]; omega
    rw [hidx, get_append_add, get_append_add, get_append_add]
    rfl
  · simp only [List.length_append, List.length_cons, List.length_nil, lenA, lenB,
      lenC, lenD]
    omega

/-- The Docker-side analogue of `assembledHistO_at`. -/
theorem assembledHistD_at (ctx : Ctx) (eff : Nat) (st : RunSt) (di : DImage)
    (bytes : List Nat) (hx : st.extraDiff = some bytes) :
    (assembledHistD ctx eff st di).get?
        (di.history.length + ctx.preEmptyLayers.length + ctx.preLayers.length) =
      some ⟨eff, ctx.createdBy, di.author, ctx.historyComment, ctx.emptyLayer⟩ ∧
    (assembledHistD ctx eff st di).get?
        (di.history.length + ctx.preEmptyLayers.length + ctx.preLayers.length + 1) =
      some ⟨eff, addCreatedBy st.extraDiffDigest, "", "", false⟩ ∧
    (assembledHistD ctx eff st di).length =
      di.history.length + ctx.preEmptyLayers.length + ctx.preLayers.length + 2
        + ctx.postEmptyLayers.length + ctx.postLayers.length := by
  have lenA : (appendHistoryPair ctx.preEmptyLayers true).2.length
      = ctx.preEmptyLayers.length := by simp [appendHistoryPair]
  have lenB : (linkedHistD ctx.preLayers).length = ctx.preLayers.length := by
    simp [linkedHistD]
  have lenC : (appendHistoryPair ctx.postEmptyLayers true).2.length
      = ctx.postEmptyLayers.length := by simp [appendHistoryPair]
  have lenD : (linkedHistD ctx.postLayers).length = ctx.postLayers.length := by
    simp [linkedHistD]
  unfold assembledHistD
  rw [hx]
  simp only [List.append_assoc]
  refine ⟨?_, ?_, ?_⟩
  · have hidx : di.history.length + ctx.preEmptyLayers.length + ctx.preLayers.length
        = di.history.length + ((appendHistoryPair ctx.preEmptyLayers true).2.length
          + ((linkedHistD ctx.preLayers).length + 0)) := by
      rw [lenA, lenB]; omega
    rw [hidx, get_append_add, get_append_add, get_append_add]
    rfl
  · have hidx : di.history.length + ctx.preEmptyLayers.length + ctx.preLayers.length + 1
        = di.history.length + ((appendHistoryPair ctx.preEmptyLayers true).2.length
          + ((linkedHistD ctx.preLayers).length + 1)) := by
      rw [lenA, lenB]; omega
    rw [hidx, get_append_add, get_append_add, get_append_add]
    rfl
  · simp only [List.length_append, List.length_cons, List.length_nil, lenA, lenB,
      lenC, lenD]
    omega

/-- C7 (counterexample): a full run producing a synthesized layer emits
the ADD history entry whose `CreatedBy` ends in `in /",` (with a
double-quote before the comma — it comes from the raw string literal
`/bin/sh -c #(nop) ADD dir:%s in /",`) rather than the claim's
`in /,`. -/
theorem c7_add_history_counterexample :
    c7run.1 = .ok c7out ∧
    c7ctx.squash = false ∧ c7ctx.omitHistory = false ∧
    c7out.oimageFinal.history.map (fun h => h.createdBy) =
      ["/bin/sh", "/bin/sh -c #(nop) ADD dir:0-112-1-5-102-2-5-5 in /\","] ∧
    ("/bin/sh -c #(nop) ADD dir:0-112-1-5-102-2-5-5 in /\"," : String) ≠
      "/bin/sh -c #(nop) ADD dir:0-112-1-5-102-2-5-5 in /," :=
  ⟨by decide, rfl, rfl, by decide, by decide⟩

/-- C7 (amended): when a synthesized extra-content layer was produced on
the non-squash path and history is not omitted, exactly one additional
history entry is appended immediately after the commit's own entry —
the history grows by exactly the prepended entries, the commit entry,
the ADD entry, and the appended entries — and that entry carries
`CreatedBy = "/bin/sh -c #(nop) ADD dir:<hex> in /","` (note the
trailing quote-comma), `EmptyLayer = false` and the effective creation
time, in both formats. -/
theorem c7_add_history (ctx : Ctx) (eff : Nat) (st : RunSt)
    (oi : OImage) (di : DImage) (o : OImage) (d : DImage) (bytes : List Nat)
    (homit : ctx.omitHistory = false)
    (hx : st.extraDiff = some bytes)
    (hb : buildHistory ctx eff st oi di = .ok (o, d)) :
    o.history.length = oi.history.length + ctx.preEmptyLayers.length
      + ctx.preLayers.length + 2 + ctx.postEmptyLayers.length
      + ctx.postLayers.length ∧
    (o.history.get? (oi.history.length + ctx.preEmptyLayers.length
        + ctx.preLayers.length)).map
      (fun h => (h.createdBy, h.emptyLayer, h.created)) =
      some (ctx.createdBy, ctx.emptyLayer, some eff) ∧
    (o.history.get? (oi.history.length + ctx.preEmptyLayers.length
        + ctx.preLayers.length + 1)).map
      (fun h => (h.createdBy, h.emptyLayer, h.created)) =
      some (addCreatedBy st.extraDiffDigest, false, some eff) ∧
    d.history.length = di.history.length + ctx.preEmptyLayers.length
      + ctx.preLayers.length + 2 + ctx.postEmptyLayers.length
      + ctx.postLayers.length ∧
    (d.history.get? (di.history.length + ctx.preEmptyLayers.length
        + ctx.preLayers.length)).map
      (fun h => (h.createdBy, h.emptyLayer, h.created)) =
      some (ctx.createdBy, ctx.emptyLayer, eff) ∧
    (d.history.get? (di.history.length + ctx.preEmptyLayers.length
        + ctx.preLayers.length + 1)).map
      (fun h => (h.createdBy, h.emptyLayer, h.created)) =
      some (addCreatedBy st.extraDiffDigest, false, eff) := by
  obtain ⟨ho, hd⟩ := buildHistory_ok_inv ctx eff st oi di o d homit hb
  subst ho
  subst hd
  obtain ⟨hA1, hA2, hAlen⟩ := assembledHistO_at ctx eff st oi bytes hx
  obtain ⟨hB1, hB2, hBlen⟩ := assembledHistD_at ctx eff st di bytes hx
  refine ⟨?_, ?_, ?_, ?_, ?_, ?_⟩
  · show (modifyCommentO (historyFromComment ctx eff st oi)
        (assembledHistO ctx eff st oi) oi.history.length).length = _
    rw [modifyCommentO_length, hAlen]
  · show ((modifyCommentO (historyFromComment ctx eff st oi)
        (assembledHistO ctx eff st oi) oi.history.length).get? _).map _ = _
    rw [modifyCommentO_get_proj, hA1]
    rfl
  · show ((modifyCommentO (historyFromComment ctx eff st oi)
        (assembledHistO ctx eff st oi) oi.history.length).get? _).map _ = _
    rw [modifyCommentO_get_proj, hA2]
    rfl
  · show (modifyCommentD (historyFromComment ctx eff st oi)
        (assembledHistD ctx eff st di) oi.history.length).length = _
    rw [modifyCommentD_length, hBlen]
  · show ((modifyCommentD (historyFromComment ctx eff st oi)
        (assembledHistD ctx eff st di) oi.history.length).get? _).map _ = _
    rw [modifyCommentD_get_proj, hB1]
    rfl
  · show ((modifyCommentD (historyFromComment ctx eff st oi)
        (assembledHistD ctx eff st di) oi.history.length).get? _).map _ = _
    rw [modifyCommentD_get_proj, hB2]
    rfl

theorem computeLayerMIMEType_rejected (c : Compression)
    (h : c = .bzip2 ∨ c = .xz ∨ c = .zstd) :
    computeLayerMIMEType c = .error (mimeErrMsg c) := by
  rcases h with h | h | h <;> subst h <;> rfl

/-- A non-synthesized planned layer whose lookup succeeds either takes
the reuse fast path (streaming nothing) or stops at the media-type
computation when the compression is rejected. -/
theorem processLayer_reuse_or_mime (env : Env) (ctx : Ctx) (plan : LayerPlan)
    (eff : Nat) (order : List String) (st : RunSt) (L : String)
    (hmime : computeLayerMIMEType ctx.compression = .error (mimeErrMsg ctx.compression))
    (hL : L ≠ synthesizedLayerID)
    (hapi : plan.apiLayerIDs.contains L = true →
      ((apiLayersOf ctx).find? (fun l => l.layerID == L)).isSome = true)
    (hnorm : plan.apiLayerIDs.contains L = false →
      (storeLayerLookup ctx.store L).isSome = true) :
    (∃ st2, processLayer env ctx plan eff order st L = .ok st2 ∧
      st2.trace = st.trace ∧ st2.staged = st.staged) ∨
    processLayer env ctx plan eff order st L =
      .fail (mimeErrMsg ctx.compression) st := by
  by_cases hA : plan.apiLayerIDs.contains L = true
  · obtain ⟨a, ha⟩ := Option.isSome_iff_exists.mp (hapi hA)
    have hphase : lookupLayerPhase env ctx plan eff order st L =
        .ok (L, a.uncompressedDigest, a.size, st) := by
      unfold lookupLayerPhase
      rw [if_pos hA, ha]
    have hred : processLayer env ctx plan eff order st L =
        processLayerRest env ctx plan eff order L a.uncompressedDigest a.size st := by
      unfold processLayer
      rw [hphase]
    rw [hred]
    unfold processLayerRest
    by_cases hF : ctx.convert = false ∧ ctx.squash = false ∧
        plan.parentLayerIDs.contains L = true ∧ a.uncompressedDigest ≠ []
    · rw [if_pos hF]
      exact Or.inl ⟨_, rfl, rfl, rfl⟩
    · rw [if_neg hF, hmime]
      exact Or.inr rfl
  · have hA2 : plan.apiLayerIDs.contains L = false := by
      cases hcl : plan.apiLayerIDs.contains L
      · rfl
      · exact absurd hcl hA
    obtain ⟨ly, hly⟩ := Option.isSome_iff_exists.mp (hnorm hA2)
    have hphase : lookupLayerPhase env ctx plan eff order st L =
        .ok (ly.id, ly.uncompressedDigest, ly.uncompressedSize, st) := by
      unfold lookupLayerPhase
      rw [if_neg (by rw [hA2]; simp), if_neg hL, hly]
    have hred : processLayer env ctx plan eff order st L =
        processLayerRest env ctx plan eff order ly.id ly.uncompressedDigest
          ly.uncompressedSize st := by
      unfold processLayer
      rw [hphase]
    rw [hred]
    unfold processLayerRest
    by_cases hF : ctx.convert = false ∧ ctx.squash = false ∧
        plan.parentLayerIDs.contains ly.id = true ∧ ly.uncompressedDigest ≠ []
    · rw [if_pos hF]
      exact Or.inl ⟨_, rfl, rfl, rfl⟩
    · rw [if_neg hF, hmime]
      exact Or.inr rfl

/-- The container's top layer never takes the fast path (it is not a
parent layer), so with a rejected compression its iteration fails with
the media-type error before opening any stream. -/
theorem processLayer_top_mime (env : Env) (ctx : Ctx) (plan : LayerPlan)
    (eff : Nat) (order : List String) (st : RunSt) (ly : StorageLayer)
    (hmime : computeLayerMIMEType ctx.compression = .error (mimeErrMsg ctx.compression))
    (hapi : plan.apiLayerIDs.contains ctx.layerID = false)
    (hsynth : ctx.layerID ≠ synthesizedLayerID)
    (hlook : storeLayerLookup ctx.store ctx.layerID = some ly)
    (hpar : plan.parentLayerIDs.contains ly.id = false) :
    processLayer env ctx plan eff order st ctx.layerID =
      .fail (mimeErrMsg ctx.compression) st := by
  have hphase : lookupLayerPhase env ctx plan eff order st ctx.layerID =
      .ok (ly.id, ly.uncompressedDigest, ly.uncompressedSize, st) := by
    unfold lookupLayerPhase
    rw [if_neg (by rw [hapi]; simp), if_neg hsynth, hlook]
  have hred : processLayer env ctx plan eff order st ctx.layerID =
      processLayerRest env ctx plan eff order ly.id ly.uncompressedDigest
        ly.uncompressedSize st := by
    unfold processLayer
    rw [hphase]
  rw [hred]
  unfold processLayerRest
  rw [if_neg (by intro hcon; rw [hpar] at hcon; simp at hcon), hmime]

/-- Folding the loop over a plan of the shape
`pre ++ top :: post` with a rejected compression: every `pre` element
either fast-paths or fails with the media-type error, the top layer
definitely fails with it, and the trace and staged set never grow. -/
theorem processLayers_mime (env : Env) (ctx : Ctx) (plan : LayerPlan)
    (eff : Nat) (order : List String) (post : List String) (ly : StorageLayer)
    (hmime : computeLayerMIMEType ctx.compression = .error (mimeErrMsg ctx.compression))
    (htapi : plan.apiLayerIDs.contains ctx.layerID = false)
    (htsynth : ctx.layerID ≠ synthesizedLayerID)
    (htlook : storeLayerLookup ctx.store ctx.layerID = some ly)
    (htpar : plan.parentLayerIDs.contains ly.id = false) :
    ∀ (pre : List String) (st : RunSt),
      (∀ L ∈ pre, L ≠ synthesizedLayerID ∧
        (plan.apiLayerIDs.contains L = true →
          ((apiLayersOf ctx).find? (fun l => l.layerID == L)).isSome = true) ∧
        (plan.apiLayerIDs.contains L = false →
          (storeLayerLookup ctx.store L).isSome = true)) →
      ∃ st2, processLayers env ctx plan eff order
          (pre ++ ctx.layerID :: post) st =
        .fail (mimeErrMsg ctx.compression) st2 ∧
        st2.trace = st.trace ∧ st2.staged = st.staged := by
  intro pre
  induction pre with
  | nil =>
    intro st _
    refine ⟨st, ?_, rfl, rfl⟩
    simp only [List.nil_append, processLayers]
    rw [processLayer_top_mime env ctx plan eff order st ly hmime htapi htsynth
      htlook htpar]
  | cons L rest ih =>
    intro st hside
    obtain ⟨h1, h2, h3⟩ := hside L (by simp)
    rcases processLayer_reuse_or_mime env ctx plan eff order st L hmime h1 h2 h3
      with ⟨st2, hok, htr, hst⟩ | hfail
    · obtain ⟨st3, hrun, htr3, hst3⟩ := ih st2 (fun M hM => hside M (by simp [hM]))
      refine ⟨st3, ?_, htr3.trans htr, hst3.trans hst⟩
      simp only [List.cons_append, processLayers]
      rw [hok]
      exact hrun
    · refine ⟨st, ?_, rfl, rfl⟩
      simp only [List.cons_append, processLayers]
      rw [hfail]

/-- C4: a commit requesting bzip2/xz/zstd compression fails inside
`NewImageSource` with exactly the error
`media type for <compression>-compressed layers is not defined`, and no
layer-bytes I/O happens first — no stream is opened, nothing is copied
and nothing is staged (the I/O trace of the run is empty) — including
when extra image content is present and a synthesized layer is planned
(the top layer's iteration fails before the synthesized layer is
reached).  The hypotheses state that the run reaches the loop: the
manifest type is supported, planning and config decoding succeed, the
plan has the walked shape with the top layer present, and the storage
lookups along the prefix succeed. -/
theorem c4_unsupported_compression (env : Env) (ctx : Ctx) (now : Nat)
    (order : List String) (plan : LayerPlan) (pre post : List String)
    (ly : StorageLayer)
    (hcomp : ctx.compression = .bzip2 ∨ ctx.compression = .xz ∨ ctx.compression = .zstd)
    (hmt : ctx.preferredManifestType = ociMTImageManifest
      ∨ ctx.preferredManifestType = dockerMTManifest)
    (hov : ctx.overrideErr = none)
    (hplan : buildLayerList ctx = .ok plan)
    (hshape : plan.layers = pre ++ ctx.layerID :: post)
    (hside : ∀ L ∈ pre, L ≠ synthesizedLayerID ∧
      (plan.apiLayerIDs.contains L = true →
        ((apiLayersOf ctx).find? (fun l => l.layerID == L)).isSome = true) ∧
      (plan.apiLayerIDs.contains L = false →
        (storeLayerLookup ctx.store L).isSome = true))
    (htapi : plan.apiLayerIDs.contains ctx.layerID = false)
    (htsynth : ctx.layerID ≠ synthesizedLayerID)
    (htlook : storeLayerLookup ctx.store ctx.layerID = some ly)
    (htpar : plan.parentLayerIDs.contains ly.id = false) :
    newImageSource env ctx now order = (.error (mimeErrMsg ctx.compression), []) := by
  have hmime := computeLayerMIMEType_rejected ctx.compression hcomp
  obtain ⟨st2, hrun, htr, hst⟩ := processLayers_mime env ctx plan
    (ctx.created.getD now) order post ly hmime htapi htsynth htlook htpar
    pre initRunSt hside
  have hcc : createConfigsAndManifests ctx (ctx.created.getD now) =
      .ok ({ ctx.oimage0 with
               created := some (ctx.created.getD now),
               diffIDs := [],
               history := if ctx.convert = true ∨ ctx.squash = true
                   ∨ ctx.omitHistory = true then [] else ctx.oimage0.history },
            { ctx.dimage0 with
               parent := if ctx.convert = true ∨ ctx.squash = true
                   ∨ ctx.omitHistory = true then ""
                 else if ctx.compatSetParent then ctx.parent
                 else ctx.dimage0.parent,
               container := ctx.containerID,
               created := ctx.created.getD now,
               diffIDs := [],
               history := if ctx.convert = true ∨ ctx.squash = true
                   ∨ ctx.omitHistory = true then [] else ctx.dimage0.history }) := by
    unfold createConfigsAndManifests
    rw [hov]
  unfold newImageSource nisCore
  rw [if_neg (by
    intro hcon
    rcases hmt with h | h
    · exact hcon.1 h
    · exact hcon.2 h)]
  rw [hplan, hcc]
  dsimp only
  rw [hshape, hrun]
  dsimp only
  rw [htr]
  rfl

theorem c4_unsupported_compression_witness :
    c4ctx.compression = .bzip2 ∧
    c4ctx.extraImageContent.length > 0 ∧
    buildLayerList c4ctx = .ok c4plan ∧
    c4plan.layers = [] ++ c4ctx.layerID :: [synthesizedLayerID] ∧
    newImageSource defEnv c4ctx 0 ["p"] = (.error (mimeErrMsg .bzip2), []) :=
  ⟨rfl, by decide, by decide, by decide,
   c4_unsupported_compression defEnv c4ctx 0 ["p"] c4plan [] [synthesizedLayerID]
     c4topLayer (Or.inl rfl) (Or.inl rfl) rfl (by decide) (by decide)
     (by intro L hL; cases hL) (by decide) (by decide) (by decide) (by decide)⟩

/-- C3 (counterexample): with `HistoryTimestamp` set and TWO
extra-content entries, two runs that only differ in the map iteration
order (both orders are valid permutations of the keys) produce both a
different manifest and a different configuration — the synthesized
layer's digest, which enters the manifest and the ADD history entry,
depends on the entry order. -/
theorem c3_digest_stability_counterexample :
    c3ctx.created = some 5 ∧
    c3ctx.extraImageContent.length = 2 ∧
    (["a", "b"] : List String).Perm (c3ctx.extraImageContent.map (fun kv => kv.1)) ∧
    (["b", "a"] : List String).Perm (c3ctx.extraImageContent.map (fun kv => kv.1)) ∧
    (newImageSource defEnv c3ctx 0 ["a", "b"]).1.isOk = true ∧
    (newImageSource defEnv c3ctx 0 ["b", "a"]).1.isOk = true ∧
    c3manifestOf (newImageSource defEnv c3ctx 0 ["a", "b"]) ≠
      c3manifestOf (newImageSource defEnv c3ctx 0 ["b", "a"]) ∧
    c3configOf (newImageSource defEnv c3ctx 0 ["a", "b"]) ≠
      c3configOf (newImageSource defEnv c3ctx 0 ["b", "a"]) :=
  ⟨rfl, rfl, by decide, by decide, by decide, by decide, by decide, by decide⟩

/-- C3 (amended): with `HistoryTimestamp` set and `ExtraImageContent`
holding AT MOST ONE entry, two independent runs of `NewImageSource` —
differing in their `time.Now` sample and in the map iteration order,
both orders being permutations of the keys — produce identical results
(in particular byte-identical manifests and configurations).  With more
than one entry the iteration order can differ and the counterexample
above applies. -/
theorem c3_digest_stability (env : Env) (ctx : Ctx) (t n1 n2 : Nat)
    (o1 o2 : List String)
    (hc : ctx.created = some t)
    (hlen : ctx.extraImageContent.length ≤ 1)
    (h1 : o1.Perm (ctx.extraImageContent.map (fun kv => kv.1)))
    (h2 : o2.Perm (ctx.extraImageContent.map (fun kv => kv.1))) :
    newImageSource env ctx n1 o1 = newImageSource env ctx n2 o2 := by
  have heq : o1 = o2 := by
    rcases hk : ctx.extraImageContent.map (fun kv => kv.1) with _ | ⟨k, ks⟩
    · rw [hk] at h1 h2
      rw [h1.eq_nil, h2.eq_nil]
    · have hks : ks = [] := by
        have hlk := congrArg List.length hk
        simp only [List.length_map, List.length_cons] at hlk
        cases ks with
        | nil => rfl
        | cons a t2 =>
          exfalso
          rw [hlk] at hlen
          simp at hlen
      subst hks
      rw [hk] at h1 h2
      rw [List.perm_singleton.mp h1, List.perm_singleton.mp h2]
  subst heq
  unfold newImageSource
  rw [hc]
  rfl

theorem c3_digest_stability_witness :
    c7ctx.created = some 5 ∧
    c7ctx.extraImageContent.length ≤ 1 ∧
    newImageSource defEnv c7ctx 3 ["p"] = newImageSource defEnv c7ctx 9 ["p"] :=
  ⟨rfl, by decide,
   c3_digest_stability defEnv c7ctx 5 3 9 ["p"] ["p"] rfl (by decide)
     (by decide) (by decide)⟩

theorem bool_ne_true_eq_false (b : Bool) (h : ¬b = true) : b = false := by
  cases b
  · rfl
  · exact absurd rfl h

theorem baseHistoryLen_pos (ctx : Ctx) (h : baseHistoryLen ctx ≠ 0) :
    ctx.convert = false ∧ ctx.squash = false ∧ ctx.omitHistory = false ∧
    ctx.oimage0.history.length ≠ 0 := by
  unfold baseHistoryLen at h
  by_cases hc : ctx.convert = true ∨ ctx.squash = true ∨ ctx.omitHistory = true
  · rw [if_pos hc] at h
    exact absurd rfl h
  · rw [if_neg hc] at h
    push_neg at hc
    obtain ⟨h1, h2, h3⟩ := hc
    exact ⟨bool_ne_true_eq_false _ h1, bool_ne_true_eq_false _ h2,
      bool_ne_true_eq_false _ h3, h⟩

theorem historyDiffIDCheck_passes (bl : Nat) (oi : OImage) (di : DImage)
    (h : historyDiffIDCheck bl oi di = .ok ()) (hbl : bl ≠ 0) :
    oi.diffIDs.length = expectedOCIDiffIDs oi ∧
    di.diffIDs.length = expectedDockerDiffIDs di := by
  unfold historyDiffIDCheck at h
  rw [if_pos hbl] at h
  by_cases h1 : oi.diffIDs.length ≠ expectedOCIDiffIDs oi
  · rw [if_pos h1] at h
    exact absurd h (by simp)
  · rw [if_neg h1] at h
    by_cases h2 : di.diffIDs.length ≠ expectedDockerDiffIDs di
    · rw [if_pos h2] at h
      exact absurd h (by simp)
    · exact ⟨not_not.mp h1, not_not.mp h2⟩

theorem historyDiffIDCheck_mismatch (bl : Nat) (oi : OImage) (di : DImage)
    (hbl : bl ≠ 0)
    (h : oi.diffIDs.length ≠ expectedOCIDiffIDs oi ∨
      di.diffIDs.length ≠ expectedDockerDiffIDs di) :
    ∃ (e a : Nat), historyDiffIDCheck bl oi di =
      .error ("internal error: history lists " ++ toString e
        ++ " non-empty layers, but we have " ++ toString a
        ++ " layers on disk") := by
  unfold historyDiffIDCheck
  rw [if_pos hbl]
  by_cases h1 : oi.diffIDs.length ≠ expectedOCIDiffIDs oi
  · rw [if_pos h1]
    exact ⟨_, _, rfl⟩
  · rw [if_neg h1]
    rcases h with h | h
    · exact absurd h h1
    · rw [if_pos h]
      exact ⟨_, _, rfl⟩

theorem buildHistory_passes_check (ctx : Ctx) (eff : Nat) (st : RunSt)
    (oi : OImage) (di : DImage) (o : OImage) (d : DImage)
    (homit : ctx.omitHistory = false) (hlen : oi.history.length ≠ 0)
    (hb : buildHistory ctx eff st oi di = .ok (o, d)) :
    o.diffIDs.length = expectedOCIDiffIDs o ∧
    d.diffIDs.length = expectedDockerDiffIDs d := by
  unfold buildHistory at hb
  rw [if_neg (by simp [homit])] at hb
  split at hb
  · exact absurd hb (by simp)
  · next u hchk =>
    simp only [Except.ok.injEq, Prod.mk.injEq] at hb
    obtain ⟨h1, h2⟩ := hb
    subst h1
    subst h2
    cases u
    exact historyDiffIDCheck_passes _ _ _ hchk hlen

/-- C1: whenever `NewImageSource` succeeds with history enabled and the
base image contributed at least one history entry, the number of
diff-IDs equals the number of non-empty-layer history entries in both
the OCI and the Docker configuration; and whenever the counts would
disagree, the confidence check fails with the internal-error message
instead of emitting an image. -/
theorem c1_diffid_history_correspondence (env : Env) (ctx : Ctx) (now : Nat)
    (order : List String) (out : ImageSrc) (tr : List IOEvent)
    (hrun : newImageSource env ctx now order = (.ok out, tr))
    (hbase : baseHistoryLen ctx ≠ 0) :
    (out.oimageFinal.diffIDs.length = expectedOCIDiffIDs out.oimageFinal ∧
     out.dimageFinal.diffIDs.length = expectedDockerDiffIDs out.dimageFinal) ∧
    (∀ bl oi di, bl ≠ 0 →
      (oi.diffIDs.length ≠ expectedOCIDiffIDs oi ∨
       di.diffIDs.length ≠ expectedDockerDiffIDs di) →
      ∃ (e a : Nat), historyDiffIDCheck bl oi di =
        .error ("internal error: history lists " ++ toString e
          ++ " non-empty layers, but we have " ++ toString a
          ++ " layers on disk")) := by
  refine ⟨?_, fun bl oi di hbl hm => historyDiffIDCheck_mismatch bl oi di hbl hm⟩
  obtain ⟨hcv, hsq, hom, hlen⟩ := baseHistoryLen_pos ctx hbase
  unfold newImageSource nisCore at hrun
  split at hrun
  · simp at hrun
  · split at hrun
    · simp at hrun
    · next plan hplan =>
      split at hrun
      · simp at hrun
      · next oimage dimage hcc =>
        split at hrun
        · simp at hrun
        · next st hloop =>
          split at hrun
          · simp at hrun
          · next oimage2 dimage2 hbh =>
            simp only [Prod.mk.injEq, Except.ok.injEq] at hrun
            obtain ⟨h1, h2⟩ := hrun
            subst h1
            have hoimg : oimage.history = ctx.oimage0.history := by
              unfold createConfigsAndManifests at hcc
              cases hov : ctx.overrideErr with
              | some m =>
                rw [hov] at hcc
                simp at hcc
              | none =>
                rw [hov] at hcc
                dsimp only at hcc
                simp only [Except.ok.injEq, Prod.mk.injEq] at hcc
                obtain ⟨ho, hd⟩ := hcc
                rw [← ho]
                simp [hcv, hsq, hom]
            have hlen2 : ({ oimage with diffIDs := st.oDiffIDs } : OImage).history.length ≠ 0 := by
              show oimage.history.length ≠ 0
              rw [hoimg]
              exact hlen
            exact buildHistory_passes_check ctx (ctx.created.getD now) st
              { oimage with diffIDs := st.oDiffIDs }
              { dimage with diffIDs := st.dDiffIDs }
              oimage2 dimage2 hom hlen2 hbh

theorem c1_diffid_history_correspondence_witness :
    newImageSource defEnv c1ctx 0 [] = (.ok c1out, c1run.2) ∧
    baseHistoryLen c1ctx = 1 ∧
    c1out.oimageFinal.diffIDs.length = expectedOCIDiffIDs c1out.oimageFinal ∧
    c1out.dimageFinal.diffIDs.length = expectedDockerDiffIDs c1out.dimageFinal :=
  ⟨by decide, by decide,
   ((c1_diffid_history_correspondence defEnv c1ctx 0 [] c1out c1run.2
     (by decide) (by decide)).1).1,
   ((c1_diffid_history_correspondence defEnv c1ctx 0 [] c1out c1run.2
     (by decide) (by decide)).1).2⟩

theorem c7_add_history_witness :
    c7st.extraDiff = some [0] ∧
    buildHistory baseCtx 5 c7st emptyOImage emptyDImage = .ok (c7stO, c7stD) ∧
    (c7stO.history.get? 1).map (fun h => (h.createdBy, h.emptyLayer, h.created)) =
      some (addCreatedBy [1, 2], false, some 5) :=
  ⟨rfl, by decide, by
    have h := c7_add_history baseCtx 5 c7st emptyOImage emptyDImage c7stO c7stD
      [0] rfl rfl (by decide)
    simpa using h.2.2.1⟩

end BuildahSpec
